import Mathlib

/-!
# Thermostat controller `gpiointerrupt.c`

A shallow embedding of the thermostat program: the global variables become a
record `State`, every C function becomes a function on `State`, and the body of
the `while (1)` loop of `mainThread` becomes `loopIter` on a record `Loop`
(the local cadence accumulators together with the globals).

Conventions.
* `short` / `int16_t` values are integers kept in `-32768 .. 32767`; a store of
  an `int` result into a `short` goes through `toInt16` (two's-complement wrap,
  which is what the target compiler does for the implementation-defined
  conversion).  `unsigned short` is `Nat` modulo `2^16`, `unsigned long` is
  `Nat` modulo `2^32`.
* The I2C sensor is the environment: `bus n` is the outcome of the `n`-th
  `I2C_transfer` made after the loop is entered.
* Output is recorded twice: `State.led` is the level last written to
  `CONFIG_GPIO_LED_0`, and `State.trace` lists every I2C transfer, GPIO write
  and UART write in program order.
* `Loop.buttonCalls`, `Loop.tempChecks` and `Loop.reports` are instrumentation:
  they count how often each guarded block of the loop body has been entered.
* A UART message is recorded by its format and arguments (`UartMsg`); the
  characters of the status record are given by `statusRecord`, which follows the
  C rules for `%0Nd`.
* Button interrupts are served between loop iterations (`runLoop`).
-/

namespace Thermostat

/-! ## Machine integers -/

/-- Conversion of an `int` value to `short` / `int16_t`: keep the low 16 bits,
read as two's complement. -/
def toInt16 (x : Int) : Int := (x + 32768) % 65536 - 32768

/-- The 16-bit pattern of a `short`, as an unsigned number. -/
def bits16 (x : Int) : Nat := (x % 65536).toNat

/-- Arithmetic on `unsigned short` is modulo `2^16`. -/
def toUInt16 (n : Nat) : Nat := n % 65536

/-- Arithmetic on `unsigned long` (32 bits on the target) is modulo `2^32`. -/
def toULong (n : Nat) : Nat := n % 4294967296

/-! ## Environment and observable events -/

/-- Outcome of one `I2C_transfer`: on success the two received bytes
`rxBuffer[0]`, `rxBuffer[1]`; on failure the value left in
`i2cTransaction.status`. -/
inductive I2CResult where
  | ok (rx0 rx1 : Fin 256)
  | fail (status : Int)
deriving DecidableEq, Repr

/-- The three `snprintf` formats the loop sends through `DISPLAY`, with their
arguments. -/
inductive UartMsg where
  /-- `"Error reading temperature sensor (%d)\n\r"` -/
  | readError (status : Int)
  /-- `"Please power cycle your board by unplugging USB and plugging back in.\n\r"` -/
  | powerCycle
  /-- `"<%02d,%02d,%d,%04d>\n\r"` with `temperature, setpoint, heat, seconds` -/
  | status (temperature setpoint : Int) (heat : Bool) (seconds : Nat)
deriving DecidableEq, Repr

/-- One externally visible action of the program. -/
inductive Event where
  | i2cTransfer (r : I2CResult)
  | gpioWrite (level : Bool)
  | uartWrite (m : UartMsg)
deriving DecidableEq, Repr

/-- The two button interrupt lines. -/
inductive Edge where
  | button0
  | button1
deriving DecidableEq, Repr

/-! ## Global variables -/

/-- The global variables of the program, the LED pin, and the record of its
input and output. -/
structure State where
  /-- `short temperature` -/
  temperature : Int
  /-- `short setpoint` -/
  setpoint : Int
  /-- `bool heat` -/
  heat : Bool
  /-- `bool increaseTemp` -/
  increaseTemp : Bool
  /-- `bool decreaseTemp` -/
  decreaseTemp : Bool
  /-- `unsigned short seconds` -/
  seconds : Nat
  /-- `unsigned short timer` -/
  timer : Nat
  /-- `int Buttonstate` (global) -/
  Buttonstate : Int
  /-- `int Tempstate` (global) -/
  Tempstate : Int
  /-- Level of `CONFIG_GPIO_LED_0`: `true` is `CONFIG_GPIO_LED_ON`. -/
  led : Bool
  /-- Number of `I2C_transfer` calls made so far. -/
  xfers : Nat
  /-- Every I2C transfer, GPIO write and UART write so far, oldest first. -/
  trace : List Event
deriving DecidableEq, Repr

/-- `enum BF_states { BF_SMStart, BF_0, BF_1, BF_2 }` -/
def BF_SMStart : Int := 0
/-- Idle. -/
def BF_0 : Int := 1
/-- Increase detected. -/
def BF_1 : Int := 2
/-- Decrease detected. -/
def BF_2 : Int := 3

/-- `enum TL_states { TL_SMStart, TL_0, TL_1, TL_2, TL_3 }` -/
def TL_SMStart : Int := 0
/-- State S0. -/
def TL_0 : Int := 1
/-- State S1. -/
def TL_1 : Int := 2
/-- State S2. -/
def TL_2 : Int := 3
/-- State S3. -/
def TL_3 : Int := 4

/-- The globals as initialised, at the point where `mainThread` enters its
loop: the LED has been switched on, no transfer of the loop has been made. -/
def initState : State :=
  { temperature := 0, setpoint := 30, heat := false, increaseTemp := false,
    decreaseTemp := false, seconds := 0, timer := 0, Buttonstate := BF_SMStart,
    Tempstate := TL_SMStart, led := true, xfers := 0, trace := [] }

/-! ## Drivers -/

/-- `I2C_transfer(i2c, &i2cTransaction)`: the environment supplies the outcome. -/
def I2C_transfer (bus : Nat → I2CResult) (st : State) : I2CResult × State :=
  (bus st.xfers,
   { st with xfers := st.xfers + 1, trace := st.trace ++ [Event.i2cTransfer (bus st.xfers)] })

/-- `DISPLAY(snprintf(output, 64, ...))`: one `UART_write`. -/
def DISPLAY (m : UartMsg) (st : State) : State :=
  { st with trace := st.trace ++ [Event.uartWrite m] }

/-- `GPIO_write(CONFIG_GPIO_LED_0, level)`. -/
def GPIO_write (level : Bool) (st : State) : State :=
  { st with led := level, trace := st.trace ++ [Event.gpioWrite level] }

/-! ## `readTemp` -/

/-- The success branch of `readTemp` on received bytes `rx0`, `rx1`.

* `temperature = (rxBuffer[0] << 8) | (rxBuffer[1]);` stores an `int` in
  `0 .. 65535` into an `int16_t`.
* `temperature *= 0.0078125;` converts to `double`, multiplies by `2^-7`
  (exact) and converts back, which discards the fraction: truncation toward
  zero, a value in `-256 .. 255`.
* `temperature |= 0xF000;` when `rxBuffer[0] & 0x80`: the operand is promoted
  to `int`, so the low 16 bits of the result are the 16-bit pattern of
  `temperature` OR-ed with `0xF000`, stored back into the `int16_t`. -/
def readTempValue (rx0 rx1 : Fin 256) : Int :=
  let temperature : Int := toInt16 (((rx0.val <<< 8) ||| rx1.val : Nat) : Int)
  let temperature : Int := Int.tdiv temperature 128
  if rx0.val &&& 0x80 ≠ 0 then
    toInt16 ((bits16 temperature ||| 0xF000 : Nat) : Int)
  else
    temperature

/-- `int16_t readTemp(void)`: the local `temperature` starts at 0 and is
returned unchanged when the transfer fails, after two error messages. -/
def readTemp (bus : Nat → I2CResult) (st : State) : Int × State :=
  match I2C_transfer bus st with
  | (I2CResult.ok rx0 rx1, st1) => (readTempValue rx0 rx1, st1)
  | (I2CResult.fail status, st1) =>
      (0, DISPLAY UartMsg.powerCycle (DISPLAY (UartMsg.readError status) st1))

/-! ## Button interrupt callbacks -/

/-- `gpioButtonFxn0`: `setpoint += 1; increaseTemp = 1;` -/
def gpioButtonFxn0 (st : State) : State :=
  { st with setpoint := toInt16 (st.setpoint + 1), increaseTemp := true }

/-- `gpioButtonFxn1`: `setpoint -= 1; decreaseTemp = 1;` -/
def gpioButtonFxn1 (st : State) : State :=
  { st with setpoint := toInt16 (st.setpoint - 1), decreaseTemp := true }

/-- The callback installed on each interrupt line. -/
def isr : Edge → State → State
  | Edge.button0, st => gpioButtonFxn0 st
  | Edge.button1, st => gpioButtonFxn1 st

/-! ## State machines -/

/-- First `switch` of `TickFct_ButtonStates`: the transition. -/
def buttonNext (Buttonstate : Int) (st : State) : Int :=
  if Buttonstate = BF_SMStart then BF_0
  else if Buttonstate = BF_0 then
    (if st.increaseTemp = true then BF_1
     else if st.decreaseTemp = true then BF_2
     else BF_SMStart)
  else if Buttonstate = BF_1 then BF_SMStart
  else if Buttonstate = BF_2 then BF_SMStart
  else Buttonstate

/-- Second `switch` of `TickFct_ButtonStates`: the action of the state entered. -/
def buttonAction (Buttonstate : Int) (st : State) : State :=
  if Buttonstate = BF_1 then
    { st with setpoint := toInt16 (st.setpoint + 1), increaseTemp := false,
              decreaseTemp := false }
  else if Buttonstate = BF_2 then
    { st with setpoint := toInt16 (st.setpoint - 1), increaseTemp := false,
              decreaseTemp := false }
  else st

/-- `int TickFct_ButtonStates(int Buttonstate)`: returns the new value of its
parameter (a local copy) and the globals after the action. -/
def TickFct_ButtonStates (Buttonstate : Int) (st : State) : Int × State :=
  (buttonNext Buttonstate st, buttonAction (buttonNext Buttonstate st) st)

/-- First `switch` of `TickFct_TemperatureStates`: the transition. -/
def tempNext (Tempstate : Int) (st : State) : Int :=
  if Tempstate = TL_SMStart then TL_0
  else if Tempstate = TL_0 then TL_1
  else if Tempstate = TL_1 then
    (if st.heat = true then TL_2
     else if st.heat = false then TL_3
     else TL_SMStart)
  else if Tempstate = TL_2 then TL_SMStart
  else if Tempstate = TL_3 then TL_SMStart
  else Tempstate

/-- Second `switch` of `TickFct_TemperatureStates`.  `case TL_1` has no
`break`, so after its own statements control runs into the statements of
`case TL_2`. -/
def tempAction (bus : Nat → I2CResult) (Tempstate : Int) (st : State) : State :=
  if Tempstate = TL_1 then
    let r := readTemp bus st
    let st1 : State := { r.2 with temperature := r.1 }
    let st2 : State :=
      if st1.temperature < st1.setpoint then { st1 with heat := true }
      else { st1 with heat := false }
    GPIO_write true st2
  else if Tempstate = TL_2 then GPIO_write true st
  else if Tempstate = TL_3 then GPIO_write false st
  else st

/-- `int TickFct_TemperatureStates(int Tempstate)`. -/
def TickFct_TemperatureStates (bus : Nat → I2CResult) (Tempstate : Int) (st : State) :
    Int × State :=
  (tempNext Tempstate st, tempAction bus (tempNext Tempstate st) st)

/-! ## The loop of `mainThread` -/

/-- The locals of `mainThread` that the loop updates, the globals, and the
invocation counters. -/
structure Loop where
  /-- `unsigned long buttonTime` -/
  buttonTime : Nat
  /-- `unsigned long temperatureTime` -/
  temperatureTime : Nat
  /-- `unsigned long outputTime` -/
  outputTime : Nat
  /-- The globals. -/
  st : State
  /-- Times the button-check block has run. -/
  buttonCalls : Nat
  /-- Times the temperature-check block has run. -/
  tempChecks : Nat
  /-- Times the status-report block has run. -/
  reports : Nat
deriving DecidableEq, Repr

/-- `const unsigned long timerPeriod = 100000;` -/
def timerPeriod : Nat := 100000

/-- Loop entry: `buttonTime = 200000`, `temperatureTime = 500000`,
`outputTime = 1000000`. -/
def initLoop : Loop :=
  { buttonTime := 200000, temperatureTime := 500000, outputTime := 1000000,
    st := initState, buttonCalls := 0, tempChecks := 0, reports := 0 }

/-- Body of `if (buttonTime >= 200000)`, without the reset:
`TickFct_ButtonStates(Buttonstate);` with the global as argument and the
returned value dropped. -/
def buttonTask (st : State) : State :=
  (TickFct_ButtonStates st.Buttonstate st).2

/-- Body of `if (temperatureTime >= 50000)`, without the reset: read, decide,
drive the LED, then `TickFct_TemperatureStates(Tempstate);` with the global as
argument and the returned value dropped. -/
def temperatureTask (bus : Nat → I2CResult) (st : State) : State :=
  let r := readTemp bus st
  let st1 : State := { r.2 with temperature := r.1 }
  let st2 : State :=
    if st1.temperature < st1.setpoint then { st1 with heat := true }
    else { st1 with heat := false }
  let st3 : State :=
    if st2.heat = false then GPIO_write false st2 else GPIO_write true st2
  (TickFct_TemperatureStates bus st3.Tempstate st3).2

/-- Body of `if (outputTime >= 100000)`, without the reset: the status record. -/
def reportTask (st : State) : State :=
  DISPLAY (UartMsg.status st.temperature st.setpoint st.heat st.seconds) st

/-- The button-check block of the loop body. -/
def buttonBlock (l : Loop) : Loop :=
  if l.buttonTime ≥ 200000 then
    { l with st := buttonTask l.st, buttonTime := 0, buttonCalls := l.buttonCalls + 1 }
  else l

/-- The temperature-check block of the loop body. -/
def temperatureBlock (bus : Nat → I2CResult) (l : Loop) : Loop :=
  if l.temperatureTime ≥ 50000 then
    { l with st := temperatureTask bus l.st, temperatureTime := 0,
             tempChecks := l.tempChecks + 1 }
  else l

/-- The status-report block of the loop body. -/
def outputBlock (l : Loop) : Loop :=
  if l.outputTime ≥ 100000 then
    { l with st := reportTask l.st, outputTime := 0, reports := l.reports + 1 }
  else l

/-- The end of the loop body, once `TimerFlag` has been raised:
`++timer; ++seconds;` and the three accumulators advance by `timerPeriod`. -/
def tickBlock (l : Loop) : Loop :=
  { l with
    st := { l.st with timer := toUInt16 (l.st.timer + 1),
                      seconds := toUInt16 (l.st.seconds + 1) },
    buttonTime := toULong (l.buttonTime + timerPeriod),
    temperatureTime := toULong (l.temperatureTime + timerPeriod),
    outputTime := toULong (l.outputTime + timerPeriod) }

/-- One iteration of `while (1)`. -/
def loopIter (bus : Nat → I2CResult) (l : Loop) : Loop :=
  tickBlock (outputBlock (temperatureBlock bus (buttonBlock l)))

/-- The button edges in `es` are served, in order. -/
def serve (es : List Edge) (st : State) : State :=
  es.foldl (fun s e => isr e s) st

/-- A run of the loop: `sched` holds, for each iteration in turn, the button
edges served just before that iteration starts. -/
def runLoop (bus : Nat → I2CResult) (sched : List (List Edge)) (l : Loop) : Loop :=
  sched.foldl (fun l1 es => loopIter bus { l1 with st := serve es l1.st }) l

/-- The machine `TickFct_ButtonStates` stepped `n` times, each step taken from
the state the previous one returned. -/
def buttonSteps : Nat → Int → State → Int × State
  | 0, b, st => (b, st)
  | n + 1, b, st =>
      buttonSteps n (TickFct_ButtonStates b st).1 (TickFct_ButtonStates b st).2

/-- A sensor that answers every transfer with the given successive outcomes and
fails once they are used up. -/
def busOf (rs : List I2CResult) (n : Nat) : I2CResult :=
  rs.getD n (I2CResult.fail (-1))

/-! ## Auxiliary data for the statements -/

/-- The globals that only the button callbacks and `TickFct_ButtonStates` can
write: `setpoint`, the two pending flags, and the two state variables. -/
def controls (st : State) : Int × Bool × Bool × Int × Int :=
  (st.setpoint, st.increaseTemp, st.decreaseTemp, st.Buttonstate, st.Tempstate)

/-- A state in which an earlier cycle read 35 degrees against the setpoint 30. -/
def warmState : State := { initState with temperature := 35, heat := false }

/-- The sensor of the scenario: 25, 32, then 29 degrees (raw words `0x0C80`,
`0x1000`, `0x0E80`). -/
def scenarioBus : Nat → I2CResult :=
  busOf [I2CResult.ok 0x0C 0x80, I2CResult.ok 0x10 0x00, I2CResult.ok 0x0E 0x80]

/-- Both pending flags raised at once. -/
def bothPending : State := { initState with increaseTemp := true, decreaseTemp := true }

/-- Only the decrease flag raised. -/
def decreasePending : State := { initState with decreaseTemp := true }

/-- Whether an event is the status record of the report task. -/
def Event.isStatus : Event → Bool
  | Event.uartWrite (UartMsg.status _ _ _ _) => true
  | _ => false

/-- The globals after one loop iteration entered with accumulators
`bt`, `tt`, `ot`: each task is applied when its guard holds, in program
order, and then `timer` and `seconds` are incremented. -/
def iterState (bus : Nat → I2CResult) (bt tt ot : Nat) (st : State) : State :=
  let s1 : State := if bt ≥ 200000 then buttonTask st else st
  let s2 : State := if tt ≥ 50000 then temperatureTask bus s1 else s1
  let s3 : State := if ot ≥ 100000 then reportTask s2 else s2
  { s3 with timer := toUInt16 (s3.timer + 1), seconds := toUInt16 (s3.seconds + 1) }

/-- A state whose next transfer is the second answer of `scenarioBus`, a
reading of 32 degrees against the setpoint 30. -/
def secondRead : State := { initState with xfers := 1 }

/-- Number of edges on line `e` served during a run with schedule `sched`. -/
def pressed (e : Edge) (sched : List (List Edge)) : Nat :=
  (sched.map (fun es => es.count e)).sum

/-! ## The text of the status record -/

/-- The `printf` conversion `%0<width>d` (plain `%d` for width 0): the decimal
digits of the magnitude, padded on the left with zeros up to `width`
characters, a minus sign counting as one of them. A number that needs more
characters than `width` is printed in full. -/
def fmtInt (width : Nat) (x : Int) : List Char :=
  if x < 0 then
    '-' :: (List.replicate (width - 1 - (Nat.toDigits 10 x.natAbs).length) '0'
      ++ Nat.toDigits 10 x.natAbs)
  else
    List.replicate (width - (Nat.toDigits 10 x.natAbs).length) '0'
      ++ Nat.toDigits 10 x.natAbs

/-- The characters that
`snprintf(output, 64, "<%02d,%02d,%d,%04d>\n\r", temperature, setpoint, heat, seconds)`
leaves in `output` (at most 63), which `DISPLAY` then sends: the bytes of
`UartMsg.status temperature setpoint heat seconds`. -/
def statusRecord (temperature setpoint : Int) (heat : Bool) (seconds : Nat) : List Char :=
  (['<'] ++ fmtInt 2 temperature ++ [','] ++ fmtInt 2 setpoint ++ [','] ++
    fmtInt 0 (if heat = true then 1 else 0) ++ [','] ++ fmtInt 4 (seconds : Int) ++
    ['>', '\n', '\r']).take 63

/-! ## Basic facts -/

theorem toInt16_of_range (x : Int) (h1 : -32768 ≤ x) (h2 : x ≤ 32767) : toInt16 x = x := by
  unfold toInt16; omega

theorem buttonNext_eq_BF_1 (b : Int) (st : State) (h : buttonNext b st = BF_1) :
    b = BF_0 ∧ st.increaseTemp = true := by
  unfold buttonNext at h
  simp only [BF_SMStart, BF_0, BF_1, BF_2] at h ⊢
  split_ifs at h <;> first | omega | exact ⟨by assumption, by assumption⟩

theorem buttonNext_eq_BF_2 (b : Int) (st : State) (h : buttonNext b st = BF_2) :
    b = BF_0 ∧ st.increaseTemp = false ∧ st.decreaseTemp = true := by
  unfold buttonNext at h
  simp only [BF_SMStart, BF_0, BF_1, BF_2] at h ⊢
  split_ifs at h <;>
    first
    | omega
    | exact ⟨by assumption, by simpa using ‹¬st.increaseTemp = true›, by assumption⟩

/-- With no flag pending a step of the button machine leaves the globals alone. -/
theorem buttonStep_idle (b : Int) (st : State)
    (hi : st.increaseTemp = false) (hd : st.decreaseTemp = false) :
    (TickFct_ButtonStates b st).2 = st := by
  have h1 : buttonNext b st ≠ BF_1 := fun h => by
    have := (buttonNext_eq_BF_1 b st h).2; simp [hi] at this
  have h2 : buttonNext b st ≠ BF_2 := fun h => by
    have := (buttonNext_eq_BF_2 b st h).2.2; simp [hd] at this
  simp [TickFct_ButtonStates, buttonAction, h1, h2]

theorem buttonSteps_idle (n : Nat) (b : Int) (st : State)
    (hi : st.increaseTemp = false) (hd : st.decreaseTemp = false) :
    (buttonSteps n b st).2 = st := by
  induction n generalizing b with
  | zero => rfl
  | succ n ih =>
    simp only [buttonSteps]
    rw [buttonStep_idle b st hi hd]
    exact ih _

/-- Called with `BF_SMStart`, as the loop does, `TickFct_ButtonStates` has no effect. -/
theorem buttonTask_of_start (st : State) (hB : st.Buttonstate = BF_SMStart) :
    buttonTask st = st := by
  simp [buttonTask, TickFct_ButtonStates, buttonNext, buttonAction, hB,
    BF_SMStart, BF_0, BF_1, BF_2]

/-! ## Fields the temperature and report tasks never write -/

theorem controls_GPIO_write (b : Bool) (st : State) :
    controls (GPIO_write b st) = controls st := rfl

theorem controls_DISPLAY (m : UartMsg) (st : State) :
    controls (DISPLAY m st) = controls st := rfl

theorem controls_readTemp (bus : Nat → I2CResult) (st : State) :
    controls (readTemp bus st).2 = controls st := by
  unfold readTemp I2C_transfer
  split <;> rename_i h <;> simp only [Prod.mk.injEq] at h <;> obtain ⟨-, rfl⟩ := h <;> rfl

theorem controls_tempAction (bus : Nat → I2CResult) (ts : Int) (st : State) :
    controls (tempAction bus ts st) = controls st := by
  have h := controls_readTemp bus st
  unfold controls at h ⊢
  simp only [Prod.mk.injEq] at h
  unfold tempAction
  split_ifs
  · simp only [GPIO_write]
    split_ifs <;> simp [h]
  · simp [GPIO_write]
  · simp [GPIO_write]
  · trivial

theorem controls_temperatureTask (bus : Nat → I2CResult) (st : State) :
    controls (temperatureTask bus st) = controls st := by
  unfold temperatureTask TickFct_TemperatureStates
  simp only
  rw [controls_tempAction]
  have h := controls_readTemp bus st
  unfold controls at h ⊢
  simp only [Prod.mk.injEq] at h
  split_ifs <;> simp [GPIO_write, h]

theorem tickBlock_st (l : Loop) :
    (tickBlock l).st =
      { l.st with timer := toUInt16 (l.st.timer + 1), seconds := toUInt16 (l.st.seconds + 1) } :=
  rfl

theorem controls_tickBlock (l : Loop) : controls (tickBlock l).st = controls l.st := by
  rw [tickBlock_st]
  rfl

theorem controls_outputBlock (l : Loop) : controls (outputBlock l).st = controls l.st := by
  unfold outputBlock
  split_ifs
  · exact controls_DISPLAY _ _
  · rfl

theorem controls_temperatureBlock (bus : Nat → I2CResult) (l : Loop) :
    controls (temperatureBlock bus l).st = controls l.st := by
  unfold temperatureBlock
  split_ifs
  · exact controls_temperatureTask bus _
  · rfl

theorem buttonBlock_st_of_start (l : Loop) (hB : l.st.Buttonstate = BF_SMStart) :
    (buttonBlock l).st = l.st := by
  unfold buttonBlock
  split_ifs
  · exact buttonTask_of_start _ hB
  · rfl

theorem controls_loopIter (bus : Nat → I2CResult) (l : Loop)
    (hB : l.st.Buttonstate = BF_SMStart) :
    controls (loopIter bus l).st = controls l.st := by
  unfold loopIter
  rw [controls_tickBlock, controls_outputBlock, controls_temperatureBlock,
    buttonBlock_st_of_start l hB]

theorem controls_Buttonstate (st st1 : State) (h : controls st1 = controls st) :
    st1.Buttonstate = st.Buttonstate := by
  unfold controls at h
  simp only [Prod.mk.injEq] at h
  exact h.2.2.2.1

/-! ## Runs of the loop -/

theorem runLoop_nil (bus : Nat → I2CResult) (l : Loop) : runLoop bus [] l = l := by
  unfold runLoop
  rw [List.foldl_nil]

theorem runLoop_cons (bus : Nat → I2CResult) (es : List Edge) (rest : List (List Edge))
    (l : Loop) :
    runLoop bus (es :: rest) l
      = runLoop bus rest (loopIter bus { l with st := serve es l.st }) := by
  unfold runLoop
  rw [List.foldl_cons]

theorem runLoop_snoc (bus : Nat → I2CResult) (sched : List (List Edge)) (es : List Edge)
    (l : Loop) :
    runLoop bus (sched ++ [es]) l
      = loopIter bus { runLoop bus sched l with st := serve es (runLoop bus sched l).st } := by
  unfold runLoop
  rw [List.foldl_append, List.foldl_cons, List.foldl_nil]

theorem serve_nil (st : State) : serve [] st = st := by
  unfold serve
  rw [List.foldl_nil]

/-- Without button edges, and with `Buttonstate` at its initial value, a run of
any length leaves `setpoint`, both flags and both state variables unchanged. -/
theorem controls_runLoop_quiet (bus : Nat → I2CResult) (n : Nat) (l : Loop)
    (hB : l.st.Buttonstate = BF_SMStart) :
    controls (runLoop bus (List.replicate n []) l).st = controls l.st := by
  induction n generalizing l with
  | zero => rw [List.replicate_zero, runLoop_nil]
  | succ n ih =>
    have hc := controls_loopIter bus l hB
    rw [List.replicate_succ, runLoop_cons, serve_nil, ih (loopIter bus l) ?_, hc]
    rw [controls_Buttonstate _ _ hc, hB]

/-! ## The two state variables are never assigned -/

theorem stateVars_buttonTask (st : State) :
    (buttonTask st).Buttonstate = st.Buttonstate ∧ (buttonTask st).Tempstate = st.Tempstate := by
  unfold buttonTask TickFct_ButtonStates buttonAction
  simp only
  split_ifs <;> exact ⟨rfl, rfl⟩

theorem stateVars_loopIter (bus : Nat → I2CResult) (l : Loop) :
    (loopIter bus l).st.Buttonstate = l.st.Buttonstate ∧
    (loopIter bus l).st.Tempstate = l.st.Tempstate := by
  have h : controls (loopIter bus l).st = controls (buttonBlock l).st := by
    unfold loopIter
    rw [controls_tickBlock, controls_outputBlock, controls_temperatureBlock]
  unfold controls at h
  simp only [Prod.mk.injEq] at h
  have hb : (buttonBlock l).st.Buttonstate = l.st.Buttonstate ∧
      (buttonBlock l).st.Tempstate = l.st.Tempstate := by
    unfold buttonBlock
    split_ifs
    · exact stateVars_buttonTask _
    · exact ⟨rfl, rfl⟩
  exact ⟨h.2.2.2.1.trans hb.1, h.2.2.2.2.trans hb.2⟩

theorem stateVars_serve (es : List Edge) (st : State) :
    (serve es st).Buttonstate = st.Buttonstate ∧ (serve es st).Tempstate = st.Tempstate := by
  unfold serve
  induction es generalizing st with
  | nil => exact ⟨rfl, rfl⟩
  | cons e es ih =>
    rw [List.foldl_cons]
    obtain ⟨h1, h2⟩ := ih (isr e st)
    cases e
    · exact ⟨h1.trans rfl, h2.trans rfl⟩
    · exact ⟨h1.trans rfl, h2.trans rfl⟩

/-- Whatever the sensor and the buttons do, a run of the loop leaves the
globals `Buttonstate` and `Tempstate` as they were: from loop entry they stay
`BF_SMStart` and `TL_SMStart`. -/
theorem stateVars_runLoop (bus : Nat → I2CResult) (sched : List (List Edge)) (l : Loop) :
    (runLoop bus sched l).st.Buttonstate = l.st.Buttonstate ∧
    (runLoop bus sched l).st.Tempstate = l.st.Tempstate := by
  induction sched generalizing l with
  | nil => rw [runLoop_nil]; exact ⟨rfl, rfl⟩
  | cons es rest ih =>
    rw [runLoop_cons]
    obtain ⟨h1, h2⟩ := ih (loopIter bus { l with st := serve es l.st })
    obtain ⟨h3, h4⟩ := stateVars_loopIter bus { l with st := serve es l.st }
    obtain ⟨h5, h6⟩ := stateVars_serve es l.st
    exact ⟨h1.trans (h3.trans h5), h2.trans (h4.trans h6)⟩

/-! ## Cadence of the three guarded blocks -/

theorem loopIter_button (bus : Nat → I2CResult) (l : Loop) :
    (loopIter bus l).buttonTime
      = toULong ((if l.buttonTime ≥ 200000 then 0 else l.buttonTime) + timerPeriod) ∧
    (loopIter bus l).buttonCalls
      = l.buttonCalls + (if l.buttonTime ≥ 200000 then 1 else 0) := by
  unfold loopIter tickBlock outputBlock temperatureBlock buttonBlock
  split_ifs <;> simp

theorem loopIter_temperature (bus : Nat → I2CResult) (l : Loop) :
    (loopIter bus l).temperatureTime
      = toULong ((if l.temperatureTime ≥ 50000 then 0 else l.temperatureTime) + timerPeriod) ∧
    (loopIter bus l).tempChecks
      = l.tempChecks + (if l.temperatureTime ≥ 50000 then 1 else 0) := by
  unfold loopIter tickBlock outputBlock temperatureBlock buttonBlock
  split_ifs <;> simp

theorem loopIter_output (bus : Nat → I2CResult) (l : Loop) :
    (loopIter bus l).outputTime
      = toULong ((if l.outputTime ≥ 100000 then 0 else l.outputTime) + timerPeriod) ∧
    (loopIter bus l).reports
      = l.reports + (if l.outputTime ≥ 100000 then 1 else 0) := by
  unfold loopIter tickBlock outputBlock temperatureBlock buttonBlock
  split_ifs <;> simp

/-- After `N` iterations `buttonTime` is 200000 for even `N` and 100000 for odd
`N`, and the button block has run `ceil (N / 2)` times. -/
theorem button_cadence (bus : Nat → I2CResult) (sched : List (List Edge)) :
    (runLoop bus sched initLoop).buttonTime = (if sched.length % 2 = 0 then 200000 else 100000) ∧
    (runLoop bus sched initLoop).buttonCalls = (sched.length + 1) / 2 := by
  induction sched using List.reverseRecOn with
  | nil => rw [runLoop_nil]; exact ⟨rfl, rfl⟩
  | append_singleton sched es ih =>
    obtain ⟨h1, h2⟩ := ih
    rw [runLoop_snoc]
    generalize hl : ({ runLoop bus sched initLoop with
      st := serve es (runLoop bus sched initLoop).st } : Loop) = l0
    have e1 : l0.buttonTime = (runLoop bus sched initLoop).buttonTime := by rw [← hl]
    have e2 : l0.buttonCalls = (runLoop bus sched initLoop).buttonCalls := by rw [← hl]
    obtain ⟨hb1, hb2⟩ := loopIter_button bus l0
    rw [hb1, hb2, e1, e2, h1, h2, List.length_append, List.length_singleton]
    unfold toULong timerPeriod
    rcases Nat.mod_two_eq_zero_or_one sched.length with h | h
    · have h3 : (sched.length + 1) % 2 = 1 := by omega
      simp only [h, h3]
      constructor
      · simp
      · simp; omega
    · have h3 : (sched.length + 1) % 2 = 0 := by omega
      simp only [h, h3]
      constructor
      · simp
      · simp; omega

/-- After the first iteration `temperatureTime` is always 100000, and the
temperature block has run in every iteration. -/
theorem temperature_cadence (bus : Nat → I2CResult) (sched : List (List Edge)) :
    (runLoop bus sched initLoop).temperatureTime = (if sched.length = 0 then 500000 else 100000) ∧
    (runLoop bus sched initLoop).tempChecks = sched.length := by
  induction sched using List.reverseRecOn with
  | nil => rw [runLoop_nil]; exact ⟨rfl, rfl⟩
  | append_singleton sched es ih =>
    obtain ⟨h1, h2⟩ := ih
    rw [runLoop_snoc]
    generalize hl : ({ runLoop bus sched initLoop with
      st := serve es (runLoop bus sched initLoop).st } : Loop) = l0
    have e1 : l0.temperatureTime = (runLoop bus sched initLoop).temperatureTime := by rw [← hl]
    have e2 : l0.tempChecks = (runLoop bus sched initLoop).tempChecks := by rw [← hl]
    obtain ⟨hb1, hb2⟩ := loopIter_temperature bus l0
    rw [hb1, hb2, e1, e2, h1, h2, List.length_append, List.length_singleton]
    unfold toULong timerPeriod
    by_cases h : sched.length = 0 <;> simp [h]

/-- After the first iteration `outputTime` is always 100000, and the report
block has run in every iteration. -/
theorem output_cadence (bus : Nat → I2CResult) (sched : List (List Edge)) :
    (runLoop bus sched initLoop).outputTime = (if sched.length = 0 then 1000000 else 100000) ∧
    (runLoop bus sched initLoop).reports = sched.length := by
  induction sched using List.reverseRecOn with
  | nil => rw [runLoop_nil]; exact ⟨rfl, rfl⟩
  | append_singleton sched es ih =>
    obtain ⟨h1, h2⟩ := ih
    rw [runLoop_snoc]
    generalize hl : ({ runLoop bus sched initLoop with
      st := serve es (runLoop bus sched initLoop).st } : Loop) = l0
    have e1 : l0.outputTime = (runLoop bus sched initLoop).outputTime := by rw [← hl]
    have e2 : l0.reports = (runLoop bus sched initLoop).reports := by rw [← hl]
    obtain ⟨hb1, hb2⟩ := loopIter_output bus l0
    rw [hb1, hb2, e1, e2, h1, h2, List.length_append, List.length_singleton]
    unfold toULong timerPeriod
    by_cases h : sched.length = 0 <;> simp [h]

/-! ## Temperature check: failed and successful transfer -/

/-- Claim C1, as amended: when the bus transaction of a temperature-check cycle
fails (and `Tempstate` holds `TL_SMStart`, as it does throughout a run), the
cycle does not keep the earlier reading: it stores 0, the value `readTemp`
returns on failure, in `temperature`, recomputes `heat` as `0 < setpoint`,
drives the LED to that value, and writes the two error messages to the UART. -/
theorem C1_failed_transfer (bus : Nat → I2CResult) (st : State) (status : Int)
    (hT : st.Tempstate = TL_SMStart) (hbus : bus st.xfers = I2CResult.fail status) :
    (temperatureTask bus st).temperature = 0 ∧
    (temperatureTask bus st).heat = decide (0 < st.setpoint) ∧
    (temperatureTask bus st).led = decide (0 < st.setpoint) ∧
    (temperatureTask bus st).trace = st.trace ++
      [Event.i2cTransfer (I2CResult.fail status), Event.uartWrite (UartMsg.readError status),
       Event.uartWrite UartMsg.powerCycle, Event.gpioWrite (decide (0 < st.setpoint))] := by
  have hr : readTemp bus st =
      (0, DISPLAY UartMsg.powerCycle (DISPLAY (UartMsg.readError status)
        { st with xfers := st.xfers + 1,
                  trace := st.trace ++ [Event.i2cTransfer (I2CResult.fail status)] })) := by
    simp [readTemp, I2C_transfer, hbus]
  unfold temperatureTask
  rw [hr]
  by_cases hs : 0 < st.setpoint
  · simp [hs, DISPLAY, GPIO_write, TickFct_TemperatureStates, tempNext, tempAction, hT,
      TL_SMStart, TL_0, TL_1, TL_2, TL_3]
  · simp [hs, DISPLAY, GPIO_write, TickFct_TemperatureStates, tempNext, tempAction, hT,
      TL_SMStart, TL_0, TL_1, TL_2, TL_3]

/-- Claim C1 at a concrete state: temperature 35, setpoint 30, heat off, and a
sensor whose transfer fails with status -1. -/
theorem C1_failed_transfer_witness :
    warmState.Tempstate = TL_SMStart ∧ busOf [] warmState.xfers = I2CResult.fail (-1) ∧
    (temperatureTask (busOf []) warmState).temperature = 0 ∧
    (temperatureTask (busOf []) warmState).heat = decide (0 < warmState.setpoint) ∧
    (temperatureTask (busOf []) warmState).led = decide (0 < warmState.setpoint) ∧
    (temperatureTask (busOf []) warmState).trace = warmState.trace ++
      [Event.i2cTransfer (I2CResult.fail (-1)), Event.uartWrite (UartMsg.readError (-1)),
       Event.uartWrite UartMsg.powerCycle, Event.gpioWrite (decide (0 < warmState.setpoint))] :=
  ⟨by decide, by decide, C1_failed_transfer (busOf []) warmState (-1) (by decide) (by decide)⟩

/-- Claim C1 as stated fails: from temperature 35, setpoint 30, heat off, a
temperature-check cycle whose transfer fails ends with temperature 0 and heat
on, so neither global keeps its earlier value. -/
theorem C1_counterexample :
    busOf [] warmState.xfers = I2CResult.fail (-1) ∧
    warmState.temperature = 35 ∧ (temperatureTask (busOf []) warmState).temperature = 0 ∧
    warmState.heat = false ∧ (temperatureTask (busOf []) warmState).heat = true := by
  decide

/-- Claim C2: for every setpoint and every successful reading of `t` degrees
(with `Tempstate` at `TL_SMStart`, as throughout a run), a temperature-check
cycle of the loop leaves the setpoint alone and ends with `temperature = t`,
`heat` true exactly when `t < setpoint`, the LED on exactly when `heat` is true,
and the last event a GPIO write of that level. -/
theorem C2_temperature_check (bus : Nat → I2CResult) (st : State) (rx0 rx1 : Fin 256)
    (t : Int) (hT : st.Tempstate = TL_SMStart) (hbus : bus st.xfers = I2CResult.ok rx0 rx1)
    (ht : readTempValue rx0 rx1 = t) :
    (temperatureTask bus st).setpoint = st.setpoint ∧
    (temperatureTask bus st).temperature = t ∧
    ((temperatureTask bus st).heat = true ↔ t < st.setpoint) ∧
    ((temperatureTask bus st).led = true ↔ (temperatureTask bus st).heat = true) ∧
    (temperatureTask bus st).trace.getLast? =
      some (Event.gpioWrite (temperatureTask bus st).heat) := by
  have hr : readTemp bus st =
      (t, { st with xfers := st.xfers + 1,
                    trace := st.trace ++ [Event.i2cTransfer (I2CResult.ok rx0 rx1)] }) := by
    simp [readTemp, I2C_transfer, hbus, ht]
  unfold temperatureTask
  rw [hr]
  by_cases hs : t < st.setpoint
  · simp [hs, GPIO_write, TickFct_TemperatureStates, tempNext, tempAction, hT,
      TL_SMStart, TL_0, TL_1, TL_2, TL_3]
  · simp [hs, GPIO_write, TickFct_TemperatureStates, tempNext, tempAction, hT,
      TL_SMStart, TL_0, TL_1, TL_2, TL_3]

/-- Claim C2, the scenario: setpoint 30 and readings 25, 32, 29 over three
temperature-check cycles give heat true, false, true and the LED on, off, on. -/
theorem C2_scenario :
    initState.setpoint = 30 ∧
    ((temperatureTask scenarioBus initState).temperature = 25 ∧
     (temperatureTask scenarioBus initState).heat = true ∧
     (temperatureTask scenarioBus initState).led = true) ∧
    ((temperatureTask scenarioBus (temperatureTask scenarioBus initState)).temperature = 32 ∧
     (temperatureTask scenarioBus (temperatureTask scenarioBus initState)).heat = false ∧
     (temperatureTask scenarioBus (temperatureTask scenarioBus initState)).led = false) ∧
    ((temperatureTask scenarioBus
        (temperatureTask scenarioBus (temperatureTask scenarioBus initState))).temperature = 29 ∧
     (temperatureTask scenarioBus
        (temperatureTask scenarioBus (temperatureTask scenarioBus initState))).heat = true ∧
     (temperatureTask scenarioBus
        (temperatureTask scenarioBus (temperatureTask scenarioBus initState))).led = true) := by
  have h1 := C2_temperature_check scenarioBus initState 0x0C 0x80 25
    (by decide) (by decide) (by decide)
  have h2 := C2_temperature_check scenarioBus (temperatureTask scenarioBus initState)
    0x10 0x00 32 (by decide) (by decide) (by decide)
  have h3 := C2_temperature_check scenarioBus
    (temperatureTask scenarioBus (temperatureTask scenarioBus initState))
    0x0E 0x80 29 (by decide) (by decide) (by decide)
  obtain ⟨hs1, ht1, hh1, hl1, -⟩ := h1
  obtain ⟨hs2, ht2, hh2, hl2, -⟩ := h2
  obtain ⟨-, ht3, hh3, hl3, -⟩ := h3
  have e1 : (temperatureTask scenarioBus initState).heat = true := hh1.mpr (by decide)
  have e2 : (temperatureTask scenarioBus (temperatureTask scenarioBus initState)).heat = false := by
    rw [← Bool.not_eq_true, hh2, hs1]; decide
  have e3 : (temperatureTask scenarioBus
      (temperatureTask scenarioBus (temperatureTask scenarioBus initState))).heat = true :=
    hh3.mpr (by rw [hs2, hs1]; decide)
  refine ⟨rfl, ⟨ht1, e1, hl1.mpr e1⟩, ⟨ht2, e2, ?_⟩, ⟨ht3, e3, hl3.mpr e3⟩⟩
  rw [← Bool.not_eq_true, hl2, e2]; decide

/-! ## `readTemp` on negative raw words -/

/-- Claim C3, evaluated: on a successful transfer of the bytes `0xFF`, `0xF0`
(raw word `0xFFF0`, that is -16/128 degree) `readTemp` returns -4096, not -1:
the scaling truncates -16/128 to 0 and the later `|= 0xF000` turns 0 into
`0xF000`. -/
theorem C3_readTemp_0xFFF0 :
    busOf [I2CResult.ok 0xFF 0xF0] initState.xfers = I2CResult.ok 0xFF 0xF0 ∧
    (readTemp (busOf [I2CResult.ok 0xFF 0xF0]) initState).1 = -4096 ∧
    (readTemp (busOf [I2CResult.ok 0xFF 0xF0]) initState).1 ≠ -1 := by
  decide

/-- Claim C4, evaluated: on a successful transfer of the bytes `0xFF`, `0xFF`
(signed word `w = -1`) `readTemp` returns -4096, which is below -256 and is not
within 1 of `w / 128` (here `128 ≤ |128 * result - w|`). -/
theorem C4_readTemp_0xFFFF :
    toInt16 (0xFF * 256 + 0xFF) = -1 ∧
    (readTemp (busOf [I2CResult.ok 0xFF 0xFF]) initState).1 = -4096 ∧
    (readTemp (busOf [I2CResult.ok 0xFF 0xFF]) initState).1 < -256 ∧
    128 ≤ |128 * (readTemp (busOf [I2CResult.ok 0xFF 0xFF]) initState).1
            - toInt16 (0xFF * 256 + 0xFF)| := by
  decide

/-! ## The button machine -/

/-- Claim C5: whenever a step of `TickFct_ButtonStates` returns `BF_1` it has
added 1 to `setpoint`, and whenever it returns `BF_2` it has subtracted 1, in
the 16-bit arithmetic of `short` (so exactly +1 below 32767 and exactly -1
above -32768); in both cases `increaseTemp` and `decreaseTemp` are false
afterwards, whatever they were before. -/
theorem C5_detected_action (b : Int) (st : State) :
    ((TickFct_ButtonStates b st).1 = BF_1 →
      (TickFct_ButtonStates b st).2.setpoint = toInt16 (st.setpoint + 1) ∧
      (-32768 ≤ st.setpoint ∧ st.setpoint < 32767 →
        (TickFct_ButtonStates b st).2.setpoint = st.setpoint + 1) ∧
      (TickFct_ButtonStates b st).2.increaseTemp = false ∧
      (TickFct_ButtonStates b st).2.decreaseTemp = false) ∧
    ((TickFct_ButtonStates b st).1 = BF_2 →
      (TickFct_ButtonStates b st).2.setpoint = toInt16 (st.setpoint - 1) ∧
      (-32768 < st.setpoint ∧ st.setpoint ≤ 32767 →
        (TickFct_ButtonStates b st).2.setpoint = st.setpoint - 1) ∧
      (TickFct_ButtonStates b st).2.increaseTemp = false ∧
      (TickFct_ButtonStates b st).2.decreaseTemp = false) := by
  constructor
  · intro h
    have h1 : buttonNext b st = BF_1 := h
    have e : (TickFct_ButtonStates b st).2 =
        { st with setpoint := toInt16 (st.setpoint + 1), increaseTemp := false,
                  decreaseTemp := false } := by
      simp [TickFct_ButtonStates, buttonAction, h1]
    rw [e]
    refine ⟨rfl, fun hr => ?_, rfl, rfl⟩
    exact toInt16_of_range _ (by omega) (by omega)
  · intro h
    have h2 : buttonNext b st = BF_2 := h
    have e : (TickFct_ButtonStates b st).2 =
        { st with setpoint := toInt16 (st.setpoint - 1), increaseTemp := false,
                  decreaseTemp := false } := by
      simp [TickFct_ButtonStates, buttonAction, h2, BF_1, BF_2]
    rw [e]
    refine ⟨rfl, fun hr => ?_, rfl, rfl⟩
    exact toInt16_of_range _ (by omega) (by omega)

/-- Claim C5 at concrete states: from Idle with both flags set the step enters
`BF_1`, moves the setpoint from 30 to 31 and clears both flags; from Idle with
only `decreaseTemp` set it enters `BF_2`, moves 30 to 29 and clears both. -/
theorem C5_detected_action_witness :
    ((TickFct_ButtonStates BF_0 bothPending).1 = BF_1 ∧
      (TickFct_ButtonStates BF_0 bothPending).2.setpoint = 30 + 1 ∧
      (TickFct_ButtonStates BF_0 bothPending).2.increaseTemp = false ∧
      (TickFct_ButtonStates BF_0 bothPending).2.decreaseTemp = false) ∧
    ((TickFct_ButtonStates BF_0 decreasePending).1 = BF_2 ∧
      (TickFct_ButtonStates BF_0 decreasePending).2.setpoint = 30 - 1 ∧
      (TickFct_ButtonStates BF_0 decreasePending).2.increaseTemp = false ∧
      (TickFct_ButtonStates BF_0 decreasePending).2.decreaseTemp = false) := by
  obtain ⟨-, hx, hi, hd⟩ := (C5_detected_action BF_0 bothPending).1 (by decide)
  obtain ⟨-, hy, hi2, hd2⟩ := (C5_detected_action BF_0 decreasePending).2 (by decide)
  exact ⟨⟨by decide, hx (by decide), hi, hd⟩, ⟨by decide, hy (by decide), hi2, hd2⟩⟩

/-- Claim C6: from any state (in particular one with both flags clear), an
increase edge, then a decrease edge, then one `TickFct_ButtonStates` step from
Idle ends in `BF_1` with both flags clear and with `setpoint` one above its
value before the two edges (in 16-bit arithmetic; exactly +1 below 32767); and
no later step of the machine, however many, changes the globals again. -/
theorem C6_increase_then_decrease (st : State) :
    (TickFct_ButtonStates BF_0 (gpioButtonFxn1 (gpioButtonFxn0 st))).1 = BF_1 ∧
    (TickFct_ButtonStates BF_0 (gpioButtonFxn1 (gpioButtonFxn0 st))).2.increaseTemp = false ∧
    (TickFct_ButtonStates BF_0 (gpioButtonFxn1 (gpioButtonFxn0 st))).2.decreaseTemp = false ∧
    (TickFct_ButtonStates BF_0 (gpioButtonFxn1 (gpioButtonFxn0 st))).2.setpoint
      = toInt16 (st.setpoint + 1) ∧
    (-32768 ≤ st.setpoint ∧ st.setpoint < 32767 →
      (TickFct_ButtonStates BF_0 (gpioButtonFxn1 (gpioButtonFxn0 st))).2.setpoint
        = st.setpoint + 1) ∧
    ∀ n : Nat,
      (buttonSteps n (TickFct_ButtonStates BF_0 (gpioButtonFxn1 (gpioButtonFxn0 st))).1
          (TickFct_ButtonStates BF_0 (gpioButtonFxn1 (gpioButtonFxn0 st))).2).2
        = (TickFct_ButtonStates BF_0 (gpioButtonFxn1 (gpioButtonFxn0 st))).2 := by
  have e : TickFct_ButtonStates BF_0 (gpioButtonFxn1 (gpioButtonFxn0 st)) =
      (BF_1, { st with setpoint := toInt16 (toInt16 (toInt16 (st.setpoint + 1) - 1) + 1),
                       increaseTemp := false, decreaseTemp := false }) := by
    simp [TickFct_ButtonStates, buttonNext, buttonAction, gpioButtonFxn0, gpioButtonFxn1,
      BF_SMStart, BF_0, BF_1, BF_2]
  have w : toInt16 (toInt16 (toInt16 (st.setpoint + 1) - 1) + 1) = toInt16 (st.setpoint + 1) := by
    unfold toInt16; omega
  rw [e, w]
  refine ⟨rfl, rfl, rfl, rfl, fun hr => toInt16_of_range _ (by omega) (by omega), fun n => ?_⟩
  exact buttonSteps_idle n _ _ rfl rfl

/-- Claim C6 from the initial state (setpoint 30, both flags clear): the step
enters `BF_1`, the setpoint is 31, and it is still 31 five machine steps later. -/
theorem C6_increase_then_decrease_witness :
    initState.increaseTemp = false ∧ initState.decreaseTemp = false ∧
    (TickFct_ButtonStates BF_0 (gpioButtonFxn1 (gpioButtonFxn0 initState))).1 = BF_1 ∧
    (TickFct_ButtonStates BF_0 (gpioButtonFxn1 (gpioButtonFxn0 initState))).2.setpoint = 31 ∧
    (buttonSteps 5 (TickFct_ButtonStates BF_0 (gpioButtonFxn1 (gpioButtonFxn0 initState))).1
      (TickFct_ButtonStates BF_0 (gpioButtonFxn1 (gpioButtonFxn0 initState))).2).2.setpoint
        = 31 := by
  obtain ⟨h1, -, -, -, h5, h6⟩ := C6_increase_then_decrease initState
  have h31 : _ = (31 : Int) := h5 (by decide)
  refine ⟨by decide, by decide, h1, h31, ?_⟩
  rw [h6 5, h31]

/-- Claim C7, as amended: `TickFct_ButtonStates` goes from Start to Idle; from
Idle to `BF_1` if `increaseTemp` is set, else to `BF_2` if `decreaseTemp` is
set, else back to Start; and from `BF_1` and from `BF_2` unconditionally back
to Start. -/
theorem C7_transition (st : State) :
    (TickFct_ButtonStates BF_SMStart st).1 = BF_0 ∧
    (TickFct_ButtonStates BF_0 st).1 =
      (if st.increaseTemp = true then BF_1
       else if st.decreaseTemp = true then BF_2 else BF_SMStart) ∧
    (TickFct_ButtonStates BF_1 st).1 = BF_SMStart ∧
    (TickFct_ButtonStates BF_2 st).1 = BF_SMStart := by
  simp [TickFct_ButtonStates, buttonNext, BF_SMStart, BF_0, BF_1, BF_2]

/-- Claim C7 as stated fails: with no flag pending the step from Idle returns
Start, and the steps from `BF_1` and from `BF_2` return Start, which is not
Idle. -/
theorem C7_counterexample :
    initState.increaseTemp = false ∧ initState.decreaseTemp = false ∧
    (TickFct_ButtonStates BF_0 initState).1 = BF_SMStart ∧
    (TickFct_ButtonStates BF_1 initState).1 = BF_SMStart ∧
    (TickFct_ButtonStates BF_2 initState).1 = BF_SMStart ∧
    BF_SMStart ≠ BF_0 := by
  decide

/-! ## The scheduler loop -/

/-- Claim C8, evaluated: start the loop, serve one increase edge before the
first iteration and none afterwards. After `n + 1` iterations, for every `n`
and every sensor, `increaseTemp` is still true and `setpoint` still has the
value the callback left (31): the loop always calls the machine with
`BF_SMStart`, so the flag is never consumed and no adjustment is applied. -/
theorem C8_flag_never_consumed (bus : Nat → I2CResult) (n : Nat) :
    (gpioButtonFxn0 initState).increaseTemp = true ∧
    (gpioButtonFxn0 initState).setpoint = 31 ∧
    (runLoop bus ([Edge.button0] :: List.replicate n []) initLoop).st.increaseTemp = true ∧
    (runLoop bus ([Edge.button0] :: List.replicate n []) initLoop).st.setpoint = 31 := by
  have h0 : ({ initLoop with st := serve [Edge.button0] initLoop.st } : Loop).st.Buttonstate
      = BF_SMStart := by decide
  have hc := controls_loopIter bus _ h0
  have h := controls_runLoop_quiet bus n _ ((controls_Buttonstate _ _ hc).trans h0)
  rw [hc] at h
  rw [runLoop_cons]
  unfold controls at h
  simp only [Prod.mk.injEq] at h
  refine ⟨by decide, by decide, h.2.1.trans (by decide), h.1.trans (by decide)⟩

/-- Claim C9: over the first `N` iterations of the loop, whatever the sensor
and the button edges do, `TickFct_ButtonStates` is invoked `(N + 1) / 2` times,
which is `floor (N * 100000 / 200000)` or one more; and an iteration that
invokes it is followed by one that does not and then by one that does, so
consecutive invocations are exactly two base ticks apart. -/
theorem C9_button_cadence (bus : Nat → I2CResult) (sched : List (List Edge))
    (e1 e2 e3 : List Edge) :
    (runLoop bus sched initLoop).buttonCalls = (sched.length + 1) / 2 ∧
    sched.length * 100000 / 200000 ≤ (runLoop bus sched initLoop).buttonCalls ∧
    (runLoop bus sched initLoop).buttonCalls ≤ sched.length * 100000 / 200000 + 1 ∧
    ((runLoop bus (sched ++ [e1]) initLoop).buttonCalls
        = (runLoop bus sched initLoop).buttonCalls + 1 →
      (runLoop bus (sched ++ [e1, e2]) initLoop).buttonCalls
        = (runLoop bus (sched ++ [e1]) initLoop).buttonCalls ∧
      (runLoop bus (sched ++ [e1, e2, e3]) initLoop).buttonCalls
        = (runLoop bus (sched ++ [e1, e2]) initLoop).buttonCalls + 1) := by
  have h0 := (button_cadence bus sched).2
  have h1 := (button_cadence bus (sched ++ [e1])).2
  have h2 := (button_cadence bus (sched ++ [e1, e2])).2
  have h3 := (button_cadence bus (sched ++ [e1, e2, e3])).2
  simp only [List.length_append, List.length_cons, List.length_nil] at h1 h2 h3
  rw [h0, h1, h2, h3]
  omega

/-- Claim C9 at the start of a run: the first iteration invokes the button
check, the second does not, the third does. -/
theorem C9_button_cadence_witness :
    (runLoop (busOf []) ([] ++ [[]]) initLoop).buttonCalls
      = (runLoop (busOf []) [] initLoop).buttonCalls + 1 ∧
    (runLoop (busOf []) ([] ++ [[], []]) initLoop).buttonCalls
      = (runLoop (busOf []) ([] ++ [[]]) initLoop).buttonCalls ∧
    (runLoop (busOf []) ([] ++ [[], [], []]) initLoop).buttonCalls
      = (runLoop (busOf []) ([] ++ [[], []]) initLoop).buttonCalls + 1 :=
  ⟨by decide, (C9_button_cadence (busOf []) [] [] [] []).2.2.2 (by decide)⟩

/-- Claim C10, evaluated: over the first 10 iterations, for every sensor, the
temperature check runs 10 times and the status report 10 times, where the
stated cadences give `floor (10 * 100 / 500) = 2` and
`floor (10 * 100 / 1000) = 1`: the guards compare with 50000 and 100000, which
one base tick of 100000 already reaches. -/
theorem C10_fires_every_tick (bus : Nat → I2CResult) :
    (runLoop bus (List.replicate 10 []) initLoop).tempChecks = 10 ∧ 10 * 100 / 500 = 2 ∧
    (runLoop bus (List.replicate 10 []) initLoop).reports = 10 ∧ 10 * 100 / 1000 = 1 := by
  have h1 := (temperature_cadence bus (List.replicate 10 [])).2
  have h2 := (output_cadence bus (List.replicate 10 [])).2
  rw [List.length_replicate] at h1 h2
  exact ⟨h1, by decide, h2, by decide⟩

/-! ## One iteration of the loop -/

theorem seconds_readTemp (bus : Nat → I2CResult) (st : State) :
    (readTemp bus st).2.seconds = st.seconds := by
  unfold readTemp I2C_transfer
  split <;> rename_i h <;> simp only [Prod.mk.injEq] at h <;> obtain ⟨-, rfl⟩ := h <;> rfl

theorem seconds_tempAction (bus : Nat → I2CResult) (ts : Int) (st : State) :
    (tempAction bus ts st).seconds = st.seconds := by
  have h := seconds_readTemp bus st
  unfold tempAction
  split_ifs
  · simp only [GPIO_write]
    split_ifs <;> simp [h]
  · rfl
  · rfl
  · rfl

theorem seconds_temperatureTask (bus : Nat → I2CResult) (st : State) :
    (temperatureTask bus st).seconds = st.seconds := by
  unfold temperatureTask TickFct_TemperatureStates
  simp only
  rw [seconds_tempAction]
  have h := seconds_readTemp bus st
  split_ifs <;> simp [GPIO_write, h]

theorem seconds_buttonTask (st : State) : (buttonTask st).seconds = st.seconds := by
  unfold buttonTask TickFct_ButtonStates buttonAction
  simp only
  split_ifs <;> rfl

theorem loopIter_st (bus : Nat → I2CResult) (l : Loop) :
    (loopIter bus l).st = iterState bus l.buttonTime l.temperatureTime l.outputTime l.st := by
  unfold loopIter
  rw [tickBlock_st]
  unfold iterState outputBlock temperatureBlock buttonBlock
  split_ifs <;> rfl

theorem iterState_seconds (bus : Nat → I2CResult) (bt tt ot : Nat) (st : State) :
    (iterState bus bt tt ot st).seconds = toUInt16 (st.seconds + 1) := by
  unfold iterState
  simp only
  split_ifs <;>
    simp only [reportTask, DISPLAY, seconds_temperatureTask, seconds_buttonTask]

/-- The mechanism of one loop iteration, from any state: each block whose
accumulator has reached the constant its guard tests (200000 for the button
check, 50000 for the temperature check, 100000 for the report) runs its task
once and restarts its accumulator from zero, each other block runs nothing and
keeps its accumulator; then every accumulator grows by exactly 100000 (no
wrap-around is possible) and `seconds` grows by 1 as an `unsigned short`
(exactly 1 below 65535). -/
theorem loopIter_guarded_blocks (bus : Nat → I2CResult) (l : Loop) :
    ((loopIter bus l).buttonCalls = l.buttonCalls + (if l.buttonTime ≥ 200000 then 1 else 0) ∧
     (loopIter bus l).buttonTime = (if l.buttonTime ≥ 200000 then 0 else l.buttonTime) + 100000) ∧
    ((loopIter bus l).tempChecks
        = l.tempChecks + (if l.temperatureTime ≥ 50000 then 1 else 0) ∧
     (loopIter bus l).temperatureTime
        = (if l.temperatureTime ≥ 50000 then 0 else l.temperatureTime) + 100000) ∧
    ((loopIter bus l).reports = l.reports + (if l.outputTime ≥ 100000 then 1 else 0) ∧
     (loopIter bus l).outputTime = (if l.outputTime ≥ 100000 then 0 else l.outputTime) + 100000) ∧
    (loopIter bus l).st = iterState bus l.buttonTime l.temperatureTime l.outputTime l.st ∧
    (loopIter bus l).st.seconds = toUInt16 (l.st.seconds + 1) ∧
    (l.st.seconds < 65535 → (loopIter bus l).st.seconds = l.st.seconds + 1) := by
  obtain ⟨b1, b2⟩ := loopIter_button bus l
  obtain ⟨t1, t2⟩ := loopIter_temperature bus l
  obtain ⟨o1, o2⟩ := loopIter_output bus l
  have hs : (loopIter bus l).st.seconds = toUInt16 (l.st.seconds + 1) := by
    rw [loopIter_st, iterState_seconds]
  refine ⟨⟨b2, ?_⟩, ⟨t2, ?_⟩, ⟨o2, ?_⟩, loopIter_st bus l, hs, fun h => ?_⟩
  · rw [b1]; unfold toULong timerPeriod
    split_ifs <;> omega
  · rw [t1]; unfold toULong timerPeriod
    split_ifs <;> omega
  · rw [o1]; unfold toULong timerPeriod
    split_ifs <;> omega
  · rw [hs]; unfold toUInt16; omega

/-- Claim C11, evaluated at the top of the second iteration after loop entry,
for every sensor: `temperatureTime` and `outputTime` are 100000, below the
periods 500000 and 1000000 that the loop's comments name and the accumulators
start from, so neither timer is due; yet the iteration runs the temperature
check and the status report once more and restarts both accumulators from zero
(they end at 100000 again, not at 200000). The button timer, whose guard tests
its period 200000, is not due either and is handled as the claim says: no
call, accumulator kept and advanced to 200000. -/
theorem C11_runs_before_period (bus : Nat → I2CResult) :
    ((runLoop bus [[]] initLoop).temperatureTime = 100000 ∧
      (runLoop bus [[]] initLoop).temperatureTime < initLoop.temperatureTime ∧
      initLoop.temperatureTime = 500000) ∧
    ((runLoop bus [[]] initLoop).outputTime = 100000 ∧
      (runLoop bus [[]] initLoop).outputTime < initLoop.outputTime ∧
      initLoop.outputTime = 1000000) ∧
    ((loopIter bus (runLoop bus [[]] initLoop)).tempChecks
        = (runLoop bus [[]] initLoop).tempChecks + 1 ∧
      (loopIter bus (runLoop bus [[]] initLoop)).temperatureTime = 100000) ∧
    ((loopIter bus (runLoop bus [[]] initLoop)).reports
        = (runLoop bus [[]] initLoop).reports + 1 ∧
      (loopIter bus (runLoop bus [[]] initLoop)).outputTime = 100000) ∧
    ((runLoop bus [[]] initLoop).buttonTime = 100000 ∧
      (loopIter bus (runLoop bus [[]] initLoop)).buttonCalls
        = (runLoop bus [[]] initLoop).buttonCalls ∧
      (loopIter bus (runLoop bus [[]] initLoop)).buttonTime = 200000) := by
  have hb : (runLoop bus [[]] initLoop).buttonTime = 100000 := (button_cadence bus [[]]).1
  have ht : (runLoop bus [[]] initLoop).temperatureTime = 100000 :=
    (temperature_cadence bus [[]]).1
  have ho : (runLoop bus [[]] initLoop).outputTime = 100000 := (output_cadence bus [[]]).1
  obtain ⟨⟨b1, b2⟩, ⟨t1, t2⟩, ⟨o1, o2⟩, -⟩ := loopIter_guarded_blocks bus (runLoop bus [[]] initLoop)
  rw [hb] at b1 b2
  rw [ht] at t1 t2
  rw [ho] at o1 o2
  have i1 : initLoop.temperatureTime = 500000 := by decide
  have i2 : initLoop.outputTime = 1000000 := by decide
  refine ⟨⟨ht, ?_, i1⟩, ⟨ho, ?_, i2⟩, ⟨?_, ?_⟩, ⟨?_, ?_⟩, hb, ?_, ?_⟩
  · rw [ht, i1]; decide
  · rw [ho, i2]; decide
  · rw [t1]; simp
  · rw [t2]; simp
  · rw [o1]; simp
  · rw [o2]; simp
  · rw [b1]; simp
  · rw [b2]; simp

/-! ## Order of the effects within an iteration -/

theorem trace_readTemp (bus : Nat → I2CResult) (st : State) :
    ∃ ev : List Event, (readTemp bus st).2.trace = st.trace ++ ev ∧
      ∀ e ∈ ev, e.isStatus = false := by
  rcases hb : bus st.xfers with ⟨a, b⟩ | status
  · refine ⟨[Event.i2cTransfer (I2CResult.ok a b)], ?_, by simp [Event.isStatus]⟩
    simp [readTemp, I2C_transfer, hb]
  · refine ⟨[Event.i2cTransfer (I2CResult.fail status),
      Event.uartWrite (UartMsg.readError status), Event.uartWrite UartMsg.powerCycle], ?_,
      by simp [Event.isStatus]⟩
    simp [readTemp, I2C_transfer, hb, DISPLAY]

theorem trace_tempAction (bus : Nat → I2CResult) (ts : Int) (st : State) :
    ∃ ev : List Event, (tempAction bus ts st).trace = st.trace ++ ev ∧
      ∀ e ∈ ev, e.isStatus = false := by
  obtain ⟨ev, h1, h2⟩ := trace_readTemp bus st
  unfold tempAction
  split_ifs
  · refine ⟨ev ++ [Event.gpioWrite true], ?_, ?_⟩
    · simp only [GPIO_write]
      split_ifs <;> simp [h1]
    · intro e he
      rcases List.mem_append.mp he with h | h
      · exact h2 e h
      · simp at h; subst h; rfl
  · exact ⟨[Event.gpioWrite true], rfl, by simp [Event.isStatus]⟩
  · exact ⟨[Event.gpioWrite false], rfl, by simp [Event.isStatus]⟩
  · exact ⟨[], by simp, by simp⟩

theorem trace_temperatureTask (bus : Nat → I2CResult) (st : State) :
    ∃ ev : List Event, (temperatureTask bus st).trace = st.trace ++ ev ∧
      ∀ e ∈ ev, e.isStatus = false := by
  obtain ⟨ev, h1, h2⟩ := trace_readTemp bus st
  unfold temperatureTask TickFct_TemperatureStates
  simp only
  generalize hts : tempNext _ _ = ts
  clear hts
  split_ifs with ha hb
  · obtain ⟨ev2, h3, h4⟩ := trace_tempAction bus ts
      (GPIO_write false { (readTemp bus st).2 with temperature := (readTemp bus st).1, heat := true })
    simp at hb
  · obtain ⟨ev2, h3, h4⟩ := trace_tempAction bus ts
      (GPIO_write true { (readTemp bus st).2 with temperature := (readTemp bus st).1, heat := true })
    refine ⟨ev ++ [Event.gpioWrite true] ++ ev2, ?_, ?_⟩
    · rw [h3]; simp [GPIO_write, h1]
    · intro e he
      simp only [List.mem_append, List.mem_singleton] at he
      rcases he with (h | h) | h
      · exact h2 e h
      · subst h; rfl
      · exact h4 e h
  · obtain ⟨ev2, h3, h4⟩ := trace_tempAction bus ts
      (GPIO_write false { (readTemp bus st).2 with temperature := (readTemp bus st).1, heat := false })
    refine ⟨ev ++ [Event.gpioWrite false] ++ ev2, ?_, ?_⟩
    · rw [h3]; simp [GPIO_write, h1]
    · intro e he
      simp only [List.mem_append, List.mem_singleton] at he
      rcases he with (h | h) | h
      · exact h2 e h
      · subst h; rfl
      · exact h4 e h
  · rename_i hc
    simp at hc


theorem trace_buttonTask (st : State) : (buttonTask st).trace = st.trace := by
  unfold buttonTask TickFct_ButtonStates buttonAction
  simp only
  split_ifs <;> rfl

theorem trace_buttonBlock (l : Loop) : (buttonBlock l).st.trace = l.st.trace := by
  unfold buttonBlock
  split_ifs
  · exact trace_buttonTask _
  · rfl

theorem trace_temperatureBlock (bus : Nat → I2CResult) (l : Loop) :
    ∃ ev : List Event, (temperatureBlock bus l).st.trace = l.st.trace ++ ev ∧
      ∀ e ∈ ev, e.isStatus = false := by
  unfold temperatureBlock
  split_ifs
  · exact trace_temperatureTask bus l.st
  · exact ⟨[], by simp, by simp⟩

theorem outputTime_blocks (bus : Nat → I2CResult) (l : Loop) :
    (temperatureBlock bus (buttonBlock l)).outputTime = l.outputTime := by
  unfold temperatureBlock buttonBlock
  split_ifs <;> rfl

theorem trace_outputBlock (l : Loop) :
    (outputBlock l).st.trace = l.st.trace ++
      (if l.outputTime ≥ 100000 then
        [Event.uartWrite (UartMsg.status l.st.temperature l.st.setpoint l.st.heat l.st.seconds)]
       else []) := by
  unfold outputBlock
  split_ifs
  · rfl
  · simp

theorem trace_tickBlock (l : Loop) : (tickBlock l).st.trace = l.st.trace := by
  rw [tickBlock_st]

theorem heat_tempAction (bus : Nat → I2CResult) (ts : Int) (st : State)
    (h : st.heat = decide (st.temperature < st.setpoint)) :
    (tempAction bus ts st).heat
      = decide ((tempAction bus ts st).temperature < (tempAction bus ts st).setpoint) := by
  unfold tempAction
  split_ifs
  · simp only [GPIO_write]
    split_ifs with hc
    · simpa using hc
    · simpa using hc
  · simpa [GPIO_write] using h
  · simpa [GPIO_write] using h
  · exact h

/-- After the temperature task `heat` is the outcome of comparing the stored
temperature with the setpoint. -/
theorem heat_temperatureTask (bus : Nat → I2CResult) (st : State) :
    (temperatureTask bus st).heat
      = decide ((temperatureTask bus st).temperature < (temperatureTask bus st).setpoint) := by
  unfold temperatureTask TickFct_TemperatureStates
  simp only
  apply heat_tempAction
  split_ifs with ha hb hc
  · simp at hb
  · simpa [GPIO_write] using ha
  · simpa [GPIO_write] using ha
  · simp at hc

/-- Claim C12: in every loop iteration the button check comes first and emits
nothing; the temperature check then appends its events (transfer, error
messages, LED writes; never a status record) while working with the setpoint
the button check left; the status record, if due, is appended last and shows
the temperature, setpoint and heat of the state the temperature check left.
When both a temperature check and a report run, the last event of the
iteration is the status record of the temperature and heat just decided. -/
theorem C12_iteration_order (bus : Nat → I2CResult) (l : Loop) :
    (buttonBlock l).st.trace = l.st.trace ∧
    (temperatureBlock bus (buttonBlock l)).st.setpoint = (buttonBlock l).st.setpoint ∧
    (∃ ev : List Event,
      (temperatureBlock bus (buttonBlock l)).st.trace = l.st.trace ++ ev ∧
      (∀ e ∈ ev, e.isStatus = false) ∧
      (loopIter bus l).st.trace = l.st.trace ++ ev ++
        (if l.outputTime ≥ 100000 then
          [Event.uartWrite (UartMsg.status
            (temperatureBlock bus (buttonBlock l)).st.temperature
            (temperatureBlock bus (buttonBlock l)).st.setpoint
            (temperatureBlock bus (buttonBlock l)).st.heat
            (temperatureBlock bus (buttonBlock l)).st.seconds)]
         else [])) ∧
    (l.temperatureTime ≥ 50000 ∧ l.outputTime ≥ 100000 →
      (loopIter bus l).st.trace.getLast? =
        some (Event.uartWrite (UartMsg.status
          (temperatureTask bus (buttonBlock l).st).temperature
          (temperatureTask bus (buttonBlock l).st).setpoint
          (temperatureTask bus (buttonBlock l).st).heat
          (temperatureTask bus (buttonBlock l).st).seconds)) ∧
      (temperatureTask bus (buttonBlock l).st).heat =
        decide ((temperatureTask bus (buttonBlock l).st).temperature
          < (temperatureTask bus (buttonBlock l).st).setpoint)) := by
  have ht : (loopIter bus l).st.trace = (temperatureBlock bus (buttonBlock l)).st.trace ++
      (if l.outputTime ≥ 100000 then
        [Event.uartWrite (UartMsg.status
          (temperatureBlock bus (buttonBlock l)).st.temperature
          (temperatureBlock bus (buttonBlock l)).st.setpoint
          (temperatureBlock bus (buttonBlock l)).st.heat
          (temperatureBlock bus (buttonBlock l)).st.seconds)]
       else []) := by
    unfold loopIter
    rw [trace_tickBlock, trace_outputBlock, outputTime_blocks]
  have hsp : (temperatureBlock bus (buttonBlock l)).st.setpoint = (buttonBlock l).st.setpoint :=
    congrArg (fun c => c.1) (controls_temperatureBlock bus (buttonBlock l))
  obtain ⟨ev, h1, h2⟩ := trace_temperatureBlock bus (buttonBlock l)
  rw [trace_buttonBlock] at h1
  refine ⟨trace_buttonBlock l, hsp, ⟨ev, h1, h2, ?_⟩, ?_⟩
  · rw [ht, h1]
  · rintro ⟨hT, hO⟩
    have hbt : (buttonBlock l).temperatureTime = l.temperatureTime := by
      unfold buttonBlock
      split_ifs <;> rfl
    have hX : (temperatureBlock bus (buttonBlock l)).st = temperatureTask bus (buttonBlock l).st := by
      have hT2 : (buttonBlock l).temperatureTime ≥ 50000 := by rw [hbt]; exact hT
      unfold temperatureBlock
      rw [if_pos hT2]
    rw [ht, if_pos hO, hX]
    exact ⟨by simp, heat_temperatureTask bus _⟩

/-- Claim C12 at loop entry with a failing sensor: the iteration ends with the
status record `<0, 30, heat on, 0 seconds>` of the temperature check just
made. -/
theorem C12_iteration_order_witness :
    (initLoop.temperatureTime ≥ 50000 ∧ initLoop.outputTime ≥ 100000) ∧
    (loopIter (busOf []) initLoop).st.trace.getLast? =
      some (Event.uartWrite (UartMsg.status
        (temperatureTask (busOf []) (buttonBlock initLoop).st).temperature
        (temperatureTask (busOf []) (buttonBlock initLoop).st).setpoint
        (temperatureTask (busOf []) (buttonBlock initLoop).st).heat
        (temperatureTask (busOf []) (buttonBlock initLoop).st).seconds)) ∧
    (temperatureTask (busOf []) (buttonBlock initLoop).st).heat =
      decide ((temperatureTask (busOf []) (buttonBlock initLoop).st).temperature
        < (temperatureTask (busOf []) (buttonBlock initLoop).st).setpoint) :=
  ⟨by decide, (C12_iteration_order (busOf []) initLoop).2.2.2 (by decide)⟩


/-! ## The temperature machine -/

/-- Claim C13, as amended: `TickFct_TemperatureStates` goes from Start to S0,
from S0 to S1, from S1 to S2 if `heat` is true and to S3 otherwise, and from S2
and from S3 back to Start (from where the next step reaches S0). -/
theorem C13_transition (bus : Nat → I2CResult) (st : State) :
    (TickFct_TemperatureStates bus TL_SMStart st).1 = TL_0 ∧
    (TickFct_TemperatureStates bus TL_0 st).1 = TL_1 ∧
    (TickFct_TemperatureStates bus TL_1 st).1 = (if st.heat = true then TL_2 else TL_3) ∧
    (TickFct_TemperatureStates bus TL_2 st).1 = TL_SMStart ∧
    (TickFct_TemperatureStates bus TL_3 st).1 = TL_SMStart := by
  cases h : st.heat <;>
    simp [TickFct_TemperatureStates, tempNext, TL_SMStart, TL_0, TL_1, TL_2, TL_3, h]

/-- Claim C13 as stated fails: the steps from S2 and from S3 return Start,
which is not S0. -/
theorem C13_counterexample :
    (TickFct_TemperatureStates (busOf []) TL_2 initState).1 = TL_SMStart ∧
    (TickFct_TemperatureStates (busOf []) TL_3 initState).1 = TL_SMStart ∧
    TL_SMStart ≠ TL_0 := by
  decide

/-- Claim C19: a step of `TickFct_TemperatureStates` from S0 enters S1, stores
the reading in `temperature`, sets `heat` to `temperature < setpoint`, and then
runs into the S2 action: the LED is written On whatever was decided. So with a
reading at or above the setpoint the step ends with `heat` false and the LED
on. -/
theorem C19_fallthrough (bus : Nat → I2CResult) (st : State) :
    (TickFct_TemperatureStates bus TL_0 st).1 = TL_1 ∧
    (TickFct_TemperatureStates bus TL_0 st).2.temperature = (readTemp bus st).1 ∧
    (TickFct_TemperatureStates bus TL_0 st).2.heat
      = decide ((readTemp bus st).1 < st.setpoint) ∧
    (TickFct_TemperatureStates bus TL_0 st).2.led = true ∧
    (TickFct_TemperatureStates bus TL_0 st).2.trace.getLast? = some (Event.gpioWrite true) ∧
    (st.setpoint ≤ (readTemp bus st).1 →
      (TickFct_TemperatureStates bus TL_0 st).2.heat = false ∧
      (TickFct_TemperatureStates bus TL_0 st).2.led = true) := by
  have hsp : (readTemp bus st).2.setpoint = st.setpoint :=
    congrArg (fun c => c.1) (controls_readTemp bus st)
  have hn : tempNext TL_0 st = TL_1 := by
    simp [tempNext, TL_SMStart, TL_0]
  unfold TickFct_TemperatureStates
  rw [hn]
  unfold tempAction
  simp only [if_true, hsp]
  by_cases hc : (readTemp bus st).1 < st.setpoint
  · simp [hc, GPIO_write]
  · simp [hc, GPIO_write]

/-- Claim C19 at a concrete state: setpoint 30 and a reading of 32 degrees;
the step from S0 ends in S1 with `heat` false and the LED on. -/
theorem C19_fallthrough_witness :
    secondRead.setpoint ≤ (readTemp scenarioBus secondRead).1 ∧
    (readTemp scenarioBus secondRead).1 = 32 ∧
    (TickFct_TemperatureStates scenarioBus TL_0 secondRead).2.heat = false ∧
    (TickFct_TemperatureStates scenarioBus TL_0 secondRead).2.led = true :=
  ⟨by decide, by decide, (C19_fallthrough scenarioBus secondRead).2.2.2.2.2 (by decide)⟩

/-! ## The button callbacks -/

/-- Claim C15: `gpioButtonFxn0` sets `increaseTemp` and adds 1 to `setpoint`
as a 16-bit `short`, `gpioButtonFxn1` sets `decreaseTemp` and subtracts 1, and
each leaves every other global, the LED and the event record as they were. -/
theorem C15_callbacks_frame (st : State) :
    ((gpioButtonFxn0 st).increaseTemp = true ∧
     (gpioButtonFxn0 st).setpoint = toInt16 (st.setpoint + 1) ∧
     (gpioButtonFxn0 st).decreaseTemp = st.decreaseTemp ∧
     (gpioButtonFxn0 st).temperature = st.temperature ∧
     (gpioButtonFxn0 st).heat = st.heat ∧
     (gpioButtonFxn0 st).seconds = st.seconds ∧
     (gpioButtonFxn0 st).timer = st.timer ∧
     (gpioButtonFxn0 st).Buttonstate = st.Buttonstate ∧
     (gpioButtonFxn0 st).Tempstate = st.Tempstate ∧
     (gpioButtonFxn0 st).led = st.led ∧
     (gpioButtonFxn0 st).xfers = st.xfers ∧
     (gpioButtonFxn0 st).trace = st.trace) ∧
    ((gpioButtonFxn1 st).decreaseTemp = true ∧
     (gpioButtonFxn1 st).setpoint = toInt16 (st.setpoint - 1) ∧
     (gpioButtonFxn1 st).increaseTemp = st.increaseTemp ∧
     (gpioButtonFxn1 st).temperature = st.temperature ∧
     (gpioButtonFxn1 st).heat = st.heat ∧
     (gpioButtonFxn1 st).seconds = st.seconds ∧
     (gpioButtonFxn1 st).timer = st.timer ∧
     (gpioButtonFxn1 st).Buttonstate = st.Buttonstate ∧
     (gpioButtonFxn1 st).Tempstate = st.Tempstate ∧
     (gpioButtonFxn1 st).led = st.led ∧
     (gpioButtonFxn1 st).xfers = st.xfers ∧
     (gpioButtonFxn1 st).trace = st.trace) := by
  unfold gpioButtonFxn0 gpioButtonFxn1
  exact ⟨⟨rfl, rfl, rfl, rfl, rfl, rfl, rfl, rfl, rfl, rfl, rfl, rfl⟩,
    ⟨rfl, rfl, rfl, rfl, rfl, rfl, rfl, rfl, rfl, rfl, rfl, rfl⟩⟩

/-- Claim C16: with the machine in Idle and `increaseTemp` clear, one press
moves the setpoint by 2 when no 16-bit overflow occurs: the increase callback
followed by one step from Idle gives setpoint + 2, the decrease callback
followed by one step from Idle gives setpoint - 2. -/
theorem C16_double_count (st : State) (hi : st.increaseTemp = false) :
    (-32768 ≤ st.setpoint ∧ st.setpoint + 2 ≤ 32767 →
      (TickFct_ButtonStates BF_0 (gpioButtonFxn0 st)).2.setpoint = st.setpoint + 2) ∧
    (-32768 ≤ st.setpoint - 2 ∧ st.setpoint ≤ 32767 →
      (TickFct_ButtonStates BF_0 (gpioButtonFxn1 st)).2.setpoint = st.setpoint - 2) := by
  constructor
  · intro hr
    have e : (TickFct_ButtonStates BF_0 (gpioButtonFxn0 st)).2.setpoint
        = toInt16 (toInt16 (st.setpoint + 1) + 1) := by
      simp [TickFct_ButtonStates, buttonNext, buttonAction, gpioButtonFxn0,
        BF_SMStart, BF_0, BF_1, BF_2]
    rw [e]; unfold toInt16; omega
  · intro hr
    have e : (TickFct_ButtonStates BF_0 (gpioButtonFxn1 st)).2.setpoint
        = toInt16 (toInt16 (st.setpoint - 1) - 1) := by
      simp [TickFct_ButtonStates, buttonNext, buttonAction, gpioButtonFxn1, hi,
        BF_SMStart, BF_0, BF_1, BF_2]
    rw [e]; unfold toInt16; omega

/-- Claim C16 from the initial state (setpoint 30, both flags clear): an
increase press ends at 32, a decrease press at 28. -/
theorem C16_double_count_witness :
    (initState.increaseTemp = false ∧ initState.decreaseTemp = false) ∧
    (TickFct_ButtonStates BF_0 (gpioButtonFxn0 initState)).2.setpoint = 30 + 2 ∧
    (TickFct_ButtonStates BF_0 (gpioButtonFxn1 initState)).2.setpoint = 30 - 2 :=
  ⟨by decide, (C16_double_count initState (by decide)).1 (by decide),
    (C16_double_count initState (by decide)).2 (by decide)⟩


/-! ## What a run can reach -/

theorem toInt16_range (x : Int) : -32768 ≤ toInt16 x ∧ toInt16 x ≤ 32767 := by
  unfold toInt16; omega

theorem serve_cons (e : Edge) (es : List Edge) (st : State) :
    serve (e :: es) st = serve es (isr e st) := by
  unfold serve
  rw [List.foldl_cons]

theorem setpoint_serve (es : List Edge) (st : State)
    (hr : -32768 ≤ st.setpoint ∧ st.setpoint ≤ 32767) :
    (serve es st).setpoint
      = toInt16 (st.setpoint + (es.count Edge.button0 : Int) - (es.count Edge.button1 : Int)) := by
  induction es generalizing st with
  | nil =>
    rw [serve_nil]
    simp only [List.count_nil, Nat.cast_zero]
    rw [toInt16_of_range _ (by omega) (by omega)]
    omega
  | cons e es ih =>
    rw [serve_cons]
    cases e
    · have h1 : (isr Edge.button0 st).setpoint = toInt16 (st.setpoint + 1) := rfl
      rw [ih _ (by rw [h1]; exact toInt16_range _), h1]
      simp only [List.count_cons, beq_self_eq_true, if_true, Nat.cast_add, Nat.cast_one]
      have h2 : (Edge.button0 == Edge.button1) = false := by decide
      simp only [h2, Bool.false_eq_true, if_false, Nat.add_zero]
      unfold toInt16; omega
    · have h1 : (isr Edge.button1 st).setpoint = toInt16 (st.setpoint - 1) := rfl
      rw [ih _ (by rw [h1]; exact toInt16_range _), h1]
      simp only [List.count_cons, beq_self_eq_true, if_true, Nat.cast_add, Nat.cast_one]
      have h2 : (Edge.button1 == Edge.button0) = false := by decide
      simp only [h2, Bool.false_eq_true, if_false, Nat.add_zero]
      unfold toInt16; omega

theorem pressed_cons (e : Edge) (es : List Edge) (rest : List (List Edge)) :
    pressed e (es :: rest) = es.count e + pressed e rest := by
  simp [pressed]

theorem setpoint_runLoop (bus : Nat → I2CResult) (sched : List (List Edge)) (l : Loop)
    (hB : l.st.Buttonstate = BF_SMStart)
    (hr : -32768 ≤ l.st.setpoint ∧ l.st.setpoint ≤ 32767) :
    (runLoop bus sched l).st.setpoint
      = toInt16 (l.st.setpoint + (pressed Edge.button0 sched : Int)
          - (pressed Edge.button1 sched : Int)) := by
  induction sched generalizing l with
  | nil =>
    rw [runLoop_nil]
    simp only [pressed, List.map_nil, List.sum_nil, Nat.cast_zero]
    rw [toInt16_of_range _ (by omega) (by omega)]
    omega
  | cons es rest ih =>
    rw [runLoop_cons]
    have hB1 : ({ l with st := serve es l.st } : Loop).st.Buttonstate = BF_SMStart :=
      (stateVars_serve es l.st).1.trans hB
    have hc := controls_loopIter bus { l with st := serve es l.st } hB1
    have hsp : (loopIter bus { l with st := serve es l.st }).st.setpoint
        = (serve es l.st).setpoint := congrArg (fun c => c.1) hc
    have hB2 : (loopIter bus { l with st := serve es l.st }).st.Buttonstate = BF_SMStart :=
      (controls_Buttonstate _ _ hc).trans hB1
    have hs := setpoint_serve es l.st hr
    rw [ih _ hB2 (by rw [hsp, hs]; exact toInt16_range _), hsp, hs, pressed_cons, pressed_cons]
    push_cast
    unfold toInt16; omega

/-- Claim C17: in every state a run reaches from loop entry, whatever the
sensor and the buttons do, `Buttonstate` and `Tempstate` still hold their Start
values; a call of either machine from Start returns the first state and leaves
every global, the LED and the event record untouched; so a loop iteration
without a button edge keeps `setpoint` and both pending flags, and after the
run `setpoint` is 30 plus the number of increase edges minus the number of
decrease edges, as a 16-bit `short`. -/
theorem C17_machines_never_leave_start (bus : Nat → I2CResult) (sched : List (List Edge)) :
    ((runLoop bus sched initLoop).st.Buttonstate = BF_SMStart ∧
     (runLoop bus sched initLoop).st.Tempstate = TL_SMStart) ∧
    ((∀ st : State, TickFct_ButtonStates BF_SMStart st = (BF_0, st)) ∧
     (∀ st : State, TickFct_TemperatureStates bus TL_SMStart st = (TL_0, st))) ∧
    ((loopIter bus (runLoop bus sched initLoop)).st.setpoint
        = (runLoop bus sched initLoop).st.setpoint ∧
     (loopIter bus (runLoop bus sched initLoop)).st.increaseTemp
        = (runLoop bus sched initLoop).st.increaseTemp ∧
     (loopIter bus (runLoop bus sched initLoop)).st.decreaseTemp
        = (runLoop bus sched initLoop).st.decreaseTemp) ∧
    (runLoop bus sched initLoop).st.setpoint
      = toInt16 (30 + (pressed Edge.button0 sched : Int) - (pressed Edge.button1 sched : Int)) := by
  obtain ⟨hB, hT⟩ := stateVars_runLoop bus sched initLoop
  have hB0 : initLoop.st.Buttonstate = BF_SMStart := by decide
  have hT0 : initLoop.st.Tempstate = TL_SMStart := by decide
  have hc := controls_loopIter bus (runLoop bus sched initLoop) (hB.trans hB0)
  unfold controls at hc
  simp only [Prod.mk.injEq] at hc
  refine ⟨⟨hB.trans hB0, hT.trans hT0⟩, ⟨fun st => ?_, fun st => ?_⟩, ⟨hc.1, hc.2.1, hc.2.2.1⟩, ?_⟩
  · simp [TickFct_ButtonStates, buttonNext, buttonAction, BF_SMStart, BF_0, BF_1, BF_2]
  · simp [TickFct_TemperatureStates, tempNext, tempAction, TL_SMStart, TL_0, TL_1, TL_2, TL_3]
  · exact setpoint_runLoop bus sched initLoop hB0 (by decide)

/-- Claim C20: from loop entry, at the top of every iteration after the first,
`buttonTime` is 100000 or 200000 and `temperatureTime` and `outputTime` are
100000; at the top of every iteration no accumulator exceeds its initial value
(200000, 500000, 1000000), so adding the base tick of 100000 stays below 2^32
and never wraps. -/
theorem C20_accumulator_bounds (bus : Nat → I2CResult) (sched : List (List Edge)) :
    (sched ≠ [] →
      ((runLoop bus sched initLoop).buttonTime = 100000 ∨
        (runLoop bus sched initLoop).buttonTime = 200000) ∧
      (runLoop bus sched initLoop).temperatureTime = 100000 ∧
      (runLoop bus sched initLoop).outputTime = 100000) ∧
    ((runLoop bus sched initLoop).buttonTime ≤ 200000 ∧
      (runLoop bus sched initLoop).temperatureTime ≤ 500000 ∧
      (runLoop bus sched initLoop).outputTime ≤ 1000000) ∧
    ((runLoop bus sched initLoop).buttonTime + timerPeriod < 4294967296 ∧
      (runLoop bus sched initLoop).temperatureTime + timerPeriod < 4294967296 ∧
      (runLoop bus sched initLoop).outputTime + timerPeriod < 4294967296) := by
  have hb := (button_cadence bus sched).1
  have ht := (temperature_cadence bus sched).1
  have ho := (output_cadence bus sched).1
  rw [hb, ht, ho]
  unfold timerPeriod
  refine ⟨fun hne => ?_, ?_, ?_⟩
  · have hl : sched.length ≠ 0 := fun h => hne (List.length_eq_zero.mp h)
    simp only [hl, if_false]
    refine ⟨?_, trivial, trivial⟩
    split_ifs
    · exact Or.inr rfl
    · exact Or.inl rfl
  · split_ifs <;> omega
  · split_ifs <;> omega

/-- Claim C20 after two iterations: the accumulators are 200000, 100000 and
100000. -/
theorem C20_accumulator_bounds_witness :
    ([[], []] : List (List Edge)) ≠ [] ∧
    ((runLoop (busOf []) [[], []] initLoop).buttonTime = 100000 ∨
      (runLoop (busOf []) [[], []] initLoop).buttonTime = 200000) ∧
    (runLoop (busOf []) [[], []] initLoop).temperatureTime = 100000 ∧
    (runLoop (busOf []) [[], []] initLoop).outputTime = 100000 :=
  ⟨by decide, (C20_accumulator_bounds (busOf []) [[], []]).1 (by decide)⟩


/-! ## Exact value of `readTemp` -/

set_option maxRecDepth 20000 in
theorem msb_iff (x : Fin 256) : (x.val &&& 0x80 ≠ 0) ↔ 128 ≤ x.val := by
  revert x
  decide

theorem shift_or (a b : Nat) (hb : b < 256) : (a <<< 8) ||| b = a * 256 + b := by
  have h := Nat.mul_add_lt_is_or (show b < 2 ^ 8 by omega) a
  rw [Nat.shiftLeft_eq, Nat.mul_comm a (2 ^ 8), ← h]

theorem tdiv128_nonneg (w : Int) (h : 0 ≤ w) : Int.tdiv w 128 = w / 128 :=
  Int.tdiv_eq_ediv h (by decide)

theorem tdiv128_neg (w : Int) (h : w < 0) : Int.tdiv w 128 = -((-w) / 128) := by
  calc Int.tdiv w 128 = Int.tdiv (-(-w)) 128 := by rw [Int.neg_neg]
    _ = -(Int.tdiv (-w) 128) := Int.neg_tdiv _ _
    _ = -((-w) / 128) := by rw [Int.tdiv_eq_ediv (by omega) (by decide)]

set_option maxRecDepth 20000 in
theorem lor_F000 (k : Fin 256) : (65280 + k.val) ||| 0xF000 = 65280 + k.val := by
  revert k
  decide

theorem or_F000_of_neg (q : Int) (h1 : -256 ≤ q) (h2 : q ≤ -1) :
    toInt16 ((bits16 q ||| 0xF000 : Nat) : Int) = q := by
  have hk : (q + 256).toNat < 256 := by omega
  have hb : bits16 q = 65280 + (q + 256).toNat := by
    unfold bits16; omega
  have hl := lor_F000 ⟨(q + 256).toNat, hk⟩
  simp only at hl
  rw [hb, hl]
  unfold toInt16
  push_cast
  omega

/-- Claim C18: for every received byte pair, with `w` the signed 16-bit word,
`readTemp` returns `w / 128` truncated toward zero, OR-ed with `0xF000` as a
16-bit value when the top bit of the first byte is set (that is, when `w < 0`).
So the result is `w / 128` for `w ≥ 0`, the truncated quotient (between -256
and -1) for `w ≤ -128`, and -4096 for every `w` from -127 to -1, where the
truncated quotient is 0. On a failed transfer the result is 0. -/
theorem C18_readTemp_exact (rx0 rx1 : Fin 256) :
    readTempValue rx0 rx1 =
      (if 128 ≤ rx0.val then
        toInt16 ((bits16 (Int.tdiv (toInt16 (rx0.val * 256 + rx1.val)) 128) ||| 0xF000 : Nat) : Int)
       else Int.tdiv (toInt16 (rx0.val * 256 + rx1.val)) 128) ∧
    (128 ≤ rx0.val ↔ toInt16 (rx0.val * 256 + rx1.val) < 0) ∧
    (0 ≤ toInt16 (rx0.val * 256 + rx1.val) →
      readTempValue rx0 rx1 = toInt16 (rx0.val * 256 + rx1.val) / 128) ∧
    (toInt16 (rx0.val * 256 + rx1.val) ≤ -128 →
      readTempValue rx0 rx1 = Int.tdiv (toInt16 (rx0.val * 256 + rx1.val)) 128 ∧
      -256 ≤ readTempValue rx0 rx1 ∧ readTempValue rx0 rx1 ≤ -1) ∧
    (-127 ≤ toInt16 (rx0.val * 256 + rx1.val) ∧ toInt16 (rx0.val * 256 + rx1.val) ≤ -1 →
      Int.tdiv (toInt16 (rx0.val * 256 + rx1.val)) 128 = 0 ∧
      readTempValue rx0 rx1 = -4096) ∧
    (∀ (bus : Nat → I2CResult) (st : State),
      (bus st.xfers = I2CResult.ok rx0 rx1 → (readTemp bus st).1 = readTempValue rx0 rx1) ∧
      (∀ status : Int, bus st.xfers = I2CResult.fail status → (readTemp bus st).1 = 0)) := by
  have ha := rx0.isLt
  have hb := rx1.isLt
  have hdef : readTempValue rx0 rx1 =
      (if 128 ≤ rx0.val then
        toInt16 ((bits16 (Int.tdiv (toInt16 (rx0.val * 256 + rx1.val)) 128) ||| 0xF000 : Nat) : Int)
       else Int.tdiv (toInt16 (rx0.val * 256 + rx1.val)) 128) := by
    unfold readTempValue
    simp only [shift_or rx0.val rx1.val hb, msb_iff, Nat.cast_add, Nat.cast_mul, Nat.cast_ofNat]
  have hw : toInt16 (rx0.val * 256 + rx1.val)
      = if 128 ≤ rx0.val then (rx0.val : Int) * 256 + rx1.val - 65536
        else (rx0.val : Int) * 256 + rx1.val := by
    unfold toInt16
    split_ifs <;> omega
  refine ⟨hdef, ?_, ?_, ?_, ?_, ?_⟩
  · rw [hw]; split_ifs <;> omega
  · intro h0
    have hlt : ¬ 128 ≤ rx0.val := by
      intro hge; rw [hw, if_pos hge] at h0; omega
    rw [hdef, if_neg hlt, tdiv128_nonneg _ h0]
  · intro hle
    have hge : 128 ≤ rx0.val := by
      by_contra hlt; rw [hw, if_neg hlt] at hle; omega
    have hq := tdiv128_neg _ (show toInt16 (rx0.val * 256 + rx1.val) < 0 by omega)
    have hwr : -32768 ≤ toInt16 (rx0.val * 256 + rx1.val) := (toInt16_range _).1
    have h1 : -256 ≤ Int.tdiv (toInt16 (rx0.val * 256 + rx1.val)) 128 := by rw [hq]; omega
    have h2 : Int.tdiv (toInt16 (rx0.val * 256 + rx1.val)) 128 ≤ -1 := by rw [hq]; omega
    rw [hdef, if_pos hge, or_F000_of_neg _ h1 h2]
    exact ⟨rfl, h1, h2⟩
  · rintro ⟨h1, h2⟩
    have hge : 128 ≤ rx0.val := by
      by_contra hlt; rw [hw, if_neg hlt] at h2; omega
    have hq : Int.tdiv (toInt16 (rx0.val * 256 + rx1.val)) 128 = 0 := by
      rw [tdiv128_neg _ (by omega)]; omega
    refine ⟨hq, ?_⟩
    rw [hdef, if_pos hge, hq]
    decide
  · intro bus st
    constructor
    · intro h; simp [readTemp, I2C_transfer, h]
    · intro status h; simp [readTemp, I2C_transfer, h]

/-- Claim C18 at three raw words: `0x0C80` (3200) gives 25, `0xFF00` (-256)
gives -2, and `0xFFF0` (-16) gives -4096. -/
theorem C18_readTemp_exact_witness :
    (0 ≤ toInt16 (((0x0C : Fin 256).val : Int) * 256 + (0x80 : Fin 256).val) ∧
      readTempValue 0x0C 0x80 = 25) ∧
    (toInt16 (((0xFF : Fin 256).val : Int) * 256 + (0x00 : Fin 256).val) ≤ -128 ∧
      readTempValue 0xFF 0x00 = -2) ∧
    ((-127 ≤ toInt16 (((0xFF : Fin 256).val : Int) * 256 + (0xF0 : Fin 256).val) ∧
      toInt16 (((0xFF : Fin 256).val : Int) * 256 + (0xF0 : Fin 256).val) ≤ -1) ∧
      readTempValue 0xFF 0xF0 = -4096) :=
  ⟨⟨by decide, ((C18_readTemp_exact 0x0C 0x80).2.2.1 (by decide)).trans (by decide)⟩,
   ⟨by decide, ((C18_readTemp_exact 0xFF 0x00).2.2.2.1 (by decide)).1.trans (by decide)⟩,
   ⟨by decide, ((C18_readTemp_exact 0xFF 0xF0).2.2.2.2.1 (by decide)).2⟩⟩


/-! ## Format of the status record -/

theorem toDigitsCore_small (f n : Nat) (ds : List Char) (h : n < 10) :
    Nat.toDigitsCore 10 (f + 1) n ds = Nat.digitChar n :: ds := by
  simp [Nat.toDigitsCore, Nat.div_eq_of_lt h, Nat.mod_eq_of_lt h]

theorem toDigitsCore_step (f n : Nat) (ds : List Char) (h : 10 ≤ n) :
    Nat.toDigitsCore 10 (f + 1) n ds
      = Nat.toDigitsCore 10 f (n / 10) (Nat.digitChar (n % 10) :: ds) := by
  have h0 : n / 10 ≠ 0 := by omega
  simp [Nat.toDigitsCore, h0]

/-- The digits of a number below 10000, padded with zeros to four places, are
its thousands, hundreds, tens and units digits. -/
theorem pad4 (n : Nat) (h : n < 10000) :
    List.replicate (4 - (Nat.toDigits 10 n).length) '0' ++ Nat.toDigits 10 n
      = [Nat.digitChar (n / 1000), Nat.digitChar (n / 100 % 10),
         Nat.digitChar (n / 10 % 10), Nat.digitChar (n % 10)] := by
  unfold Nat.toDigits
  by_cases h1 : n < 10
  · rw [toDigitsCore_small _ _ _ h1]
    have e1 : n / 1000 = 0 := by omega
    have e2 : n / 100 % 10 = 0 := by omega
    have e3 : n / 10 % 10 = 0 := by omega
    have e4 : n % 10 = n := by omega
    rw [e1, e2, e3, e4]
    rfl
  · obtain ⟨k, rfl⟩ : ∃ k, n = k + 1 := ⟨n - 1, by omega⟩
    rw [toDigitsCore_step _ _ _ (by omega)]
    by_cases h2 : k + 1 < 100
    · obtain ⟨j, rfl⟩ : ∃ j, k = j + 1 := ⟨k - 1, by omega⟩
      rw [toDigitsCore_small _ _ _ (by omega)]
      have e1 : (j + 1 + 1) / 1000 = 0 := by omega
      have e2 : (j + 1 + 1) / 100 % 10 = 0 := by omega
      have e3 : (j + 1 + 1) / 10 % 10 = (j + 1 + 1) / 10 := by omega
      rw [e1, e2, e3]
      rfl
    · obtain ⟨j, rfl⟩ : ∃ j, k = j + 1 := ⟨k - 1, by omega⟩
      rw [toDigitsCore_step _ _ _ (by omega)]
      by_cases h3 : j + 1 + 1 < 1000
      · obtain ⟨i, rfl⟩ : ∃ i, j = i + 1 := ⟨j - 1, by omega⟩
        rw [toDigitsCore_small _ _ _ (by omega)]
        have e1 : (i + 1 + 1 + 1) / 1000 = 0 := by omega
        have e2 : (i + 1 + 1 + 1) / 100 % 10 = (i + 1 + 1 + 1) / 10 / 10 := by omega
        have e3 : (i + 1 + 1 + 1) / 10 % 10 = (i + 1 + 1 + 1) / 10 % 10 := rfl
        rw [e1, e2]
        rfl
      · obtain ⟨i, rfl⟩ : ∃ i, j = i + 1 := ⟨j - 1, by omega⟩
        rw [toDigitsCore_step _ _ _ (by omega)]
        obtain ⟨m, rfl⟩ : ∃ m, i = m + 1 := ⟨i - 1, by omega⟩
        rw [toDigitsCore_small _ _ _ (by omega)]
        have e1 : (m + 1 + 1 + 1 + 1) / 1000 = (m + 1 + 1 + 1 + 1) / 10 / 10 / 10 := by omega
        have e2 : (m + 1 + 1 + 1 + 1) / 100 % 10 = (m + 1 + 1 + 1 + 1) / 10 / 10 % 10 := by omega
        rw [e1, e2]
        rfl


/-- The digits of a number below 100, padded with zeros to two places, are its
tens and units digits. -/
theorem pad2 (n : Nat) (h : n < 100) :
    List.replicate (2 - (Nat.toDigits 10 n).length) '0' ++ Nat.toDigits 10 n
      = [Nat.digitChar (n / 10), Nat.digitChar (n % 10)] := by
  unfold Nat.toDigits
  by_cases h1 : n < 10
  · rw [toDigitsCore_small _ _ _ h1]
    have e1 : n / 10 = 0 := by omega
    have e4 : n % 10 = n := by omega
    rw [e1, e4]
    rfl
  · obtain ⟨k, rfl⟩ : ∃ k, n = k + 1 := ⟨n - 1, by omega⟩
    rw [toDigitsCore_step _ _ _ (by omega)]
    obtain ⟨j, rfl⟩ : ∃ j, k = j + 1 := ⟨k - 1, by omega⟩
    rw [toDigitsCore_small _ _ _ (by omega)]
    rfl

theorem fmtInt_two (x : Int) (h0 : 0 ≤ x) (h1 : x ≤ 99) :
    fmtInt 2 x = [Nat.digitChar (x.natAbs / 10), Nat.digitChar (x.natAbs % 10)] := by
  unfold fmtInt
  rw [if_neg (by omega)]
  exact pad2 _ (by omega)

theorem fmtInt_four (n : Nat) (h : n ≤ 9999) :
    fmtInt 4 (n : Int)
      = [Nat.digitChar (n / 1000), Nat.digitChar (n / 100 % 10),
         Nat.digitChar (n / 10 % 10), Nat.digitChar (n % 10)] := by
  unfold fmtInt
  rw [if_neg (by omega), Int.natAbs_ofNat]
  exact pad4 _ (by omega)

theorem fmtInt_flag (b : Bool) :
    fmtInt 0 (if b = true then 1 else 0) = [if b = true then '1' else '0'] := by
  cases b <;> decide

theorem toDigitsCore_length (f m : Nat) (ds : List Char) :
    ds.length ≤ (Nat.toDigitsCore 10 f m ds).length := by
  induction f generalizing m ds with
  | zero => simp [Nat.toDigitsCore]
  | succ f ih =>
    simp only [Nat.toDigitsCore]
    split_ifs
    · simp
    · exact Nat.le_trans (by simp) (ih (m / 10) (Nat.digitChar (m % 10) :: ds))

theorem toDigitsCore_length_succ (f m : Nat) (ds : List Char) :
    ds.length + 1 ≤ (Nat.toDigitsCore 10 (f + 1) m ds).length := by
  simp only [Nat.toDigitsCore]
  split_ifs
  · simp
  · exact Nat.le_trans (by simp) (toDigitsCore_length f (m / 10) (Nat.digitChar (m % 10) :: ds))

/-- Every number has at least one decimal digit. -/
theorem toDigits_length_pos (n : Nat) : 1 ≤ (Nat.toDigits 10 n).length := by
  unfold Nat.toDigits
  exact toDigitsCore_length_succ n n []

/-- A number of 100 or more has at least three decimal digits. -/
theorem toDigits_length_ge_three (n : Nat) (h : 100 ≤ n) : 3 ≤ (Nat.toDigits 10 n).length := by
  unfold Nat.toDigits
  rw [toDigitsCore_step _ _ _ (by omega)]
  obtain ⟨k, rfl⟩ : ∃ k, n = k + 1 := ⟨n - 1, by omega⟩
  rw [toDigitsCore_step _ _ _ (by omega)]
  obtain ⟨j, rfl⟩ : ∃ j, k = j + 1 := ⟨k - 1, by omega⟩
  exact toDigitsCore_length_succ j ((j + 1 + 1) / 10 / 10)
    [Nat.digitChar ((j + 1 + 1) / 10 % 10), Nat.digitChar ((j + 1 + 1) % 10)]

/-- A number from 10000 to 99999 has exactly five decimal digits. -/
theorem toDigits_five (n : Nat) (h1 : 10000 ≤ n) (h2 : n < 100000) :
    Nat.toDigits 10 n
      = [Nat.digitChar (n / 10000), Nat.digitChar (n / 1000 % 10), Nat.digitChar (n / 100 % 10),
         Nat.digitChar (n / 10 % 10), Nat.digitChar (n % 10)] := by
  unfold Nat.toDigits
  rw [toDigitsCore_step _ _ _ (by omega)]
  obtain ⟨k, rfl⟩ : ∃ k, n = k + 1 := ⟨n - 1, by omega⟩
  rw [toDigitsCore_step _ _ _ (by omega)]
  obtain ⟨j, rfl⟩ : ∃ j, k = j + 1 := ⟨k - 1, by omega⟩
  rw [toDigitsCore_step _ _ _ (by omega)]
  obtain ⟨i, rfl⟩ : ∃ i, j = i + 1 := ⟨j - 1, by omega⟩
  rw [toDigitsCore_step _ _ _ (by omega)]
  obtain ⟨m, rfl⟩ : ∃ m, i = m + 1 := ⟨i - 1, by omega⟩
  rw [toDigitsCore_small _ _ _ (by omega)]
  have e1 : (m + 1 + 1 + 1 + 1) / 10000 = (m + 1 + 1 + 1 + 1) / 10 / 10 / 10 / 10 := by
    omega
  have e2 : (m + 1 + 1 + 1 + 1) / 1000 % 10
      = (m + 1 + 1 + 1 + 1) / 10 / 10 / 10 % 10 := by omega
  have e3 : (m + 1 + 1 + 1 + 1) / 100 % 10 = (m + 1 + 1 + 1 + 1) / 10 / 10 % 10 := by
    omega
  rw [e1, e2, e3]

/-- A number below 100000 has at most five decimal digits. -/
theorem toDigits_length_le_five (n : Nat) (h : n < 100000) :
    (Nat.toDigits 10 n).length ≤ 5 := by
  by_cases h1 : n < 10000
  · have h4 := congrArg List.length (pad4 n h1)
    simp only [List.length_append, List.length_replicate, List.length_cons,
      List.length_nil] at h4
    omega
  · rw [toDigits_five n (by omega) h]
    simp

theorem fmtInt_two_neg (x : Int) (h : x < 0) :
    fmtInt 2 x = '-' :: Nat.toDigits 10 x.natAbs := by
  have hp := toDigits_length_pos x.natAbs
  have h0 : 2 - 1 - (Nat.toDigits 10 x.natAbs).length = 0 := by omega
  unfold fmtInt
  rw [if_pos h, h0]
  simp

theorem fmtInt_two_big (x : Int) (h : 100 ≤ x) :
    fmtInt 2 x = Nat.toDigits 10 x.natAbs ∧ 3 ≤ (Nat.toDigits 10 x.natAbs).length := by
  have hp := toDigits_length_ge_three x.natAbs (by omega)
  have h0 : 2 - (Nat.toDigits 10 x.natAbs).length = 0 := by omega
  refine ⟨?_, hp⟩
  unfold fmtInt
  rw [if_neg (by omega), h0]
  simp

theorem fmtInt_four_big (n : Nat) (h1 : 10000 ≤ n) (h2 : n ≤ 65535) :
    fmtInt 4 (n : Int)
      = [Nat.digitChar (n / 10000), Nat.digitChar (n / 1000 % 10), Nat.digitChar (n / 100 % 10),
         Nat.digitChar (n / 10 % 10), Nat.digitChar (n % 10)] := by
  unfold fmtInt
  rw [if_neg (by omega), Int.natAbs_ofNat, toDigits_five n h1 (by omega)]
  simp

theorem fmtInt_two_length (x : Int) (h : -32768 ≤ x ∧ x ≤ 32767) :
    (fmtInt 2 x).length ≤ 6 := by
  by_cases hn : x < 0
  · rw [fmtInt_two_neg x hn]
    have := toDigits_length_le_five x.natAbs (by omega)
    simp only [List.length_cons]
    omega
  · by_cases hb : x ≤ 99
    · rw [fmtInt_two x (by omega) hb]
      simp
    · rw [(fmtInt_two_big x (by omega)).1]
      have := toDigits_length_le_five x.natAbs (by omega)
      omega

theorem fmtInt_four_length (n : Nat) (h : n ≤ 65535) : (fmtInt 4 (n : Int)).length ≤ 5 := by
  by_cases hb : n ≤ 9999
  · rw [fmtInt_four n hb]
    simp
  · rw [fmtInt_four_big n (by omega) h]
    simp

/-- For 16-bit arguments the 64-byte buffer of `snprintf` cuts nothing off. -/
theorem statusRecord_untruncated (t s : Int) (b : Bool) (sec : Nat)
    (ht : -32768 ≤ t ∧ t ≤ 32767) (hs : -32768 ≤ s ∧ s ≤ 32767) (hsec : sec ≤ 65535) :
    statusRecord t s b sec =
      ['<'] ++ fmtInt 2 t ++ [','] ++ fmtInt 2 s ++ [','] ++ [if b = true then '1' else '0'] ++
        [','] ++ fmtInt 4 (sec : Int) ++ ['>', '\n', '\r'] := by
  unfold statusRecord
  rw [fmtInt_flag]
  apply List.take_of_length_le
  have h1 := fmtInt_two_length t ht
  have h2 := fmtInt_two_length s hs
  have h3 := fmtInt_four_length sec hsec
  simp only [List.length_append, List.length_cons, List.length_nil]
  omega

/-- Claim C14, as amended. The report task sends the status record of the
current temperature, setpoint, heat and seconds. For 16-bit values the record
is `<`, the temperature field, `,`, the setpoint field, `,`, `0` or `1` for
heat, `,`, the seconds field, `>`, `\n\r`, with nothing cut off. When
temperature and setpoint lie in 0..99 and seconds is at most 9999 the fields
are exactly two, two and four decimal digits and the record has 16 characters.
Otherwise a field is wider or signed: a negative temperature or setpoint is
printed as a minus sign followed by its digits, one of 100 or more as its three
or more digits, and seconds from 10000 to 65535 as five digits. -/
theorem C14_status_record (st : State) :
    (reportTask st).trace = st.trace ++
      [Event.uartWrite (UartMsg.status st.temperature st.setpoint st.heat st.seconds)] ∧
    ((0 ≤ st.temperature ∧ st.temperature ≤ 99) ∧ (0 ≤ st.setpoint ∧ st.setpoint ≤ 99) ∧
        st.seconds ≤ 9999 →
      statusRecord st.temperature st.setpoint st.heat st.seconds =
        ['<', Nat.digitChar (st.temperature.natAbs / 10),
         Nat.digitChar (st.temperature.natAbs % 10),
         ',', Nat.digitChar (st.setpoint.natAbs / 10), Nat.digitChar (st.setpoint.natAbs % 10),
         ',', (if st.heat = true then '1' else '0'),
         ',', Nat.digitChar (st.seconds / 1000), Nat.digitChar (st.seconds / 100 % 10),
         Nat.digitChar (st.seconds / 10 % 10), Nat.digitChar (st.seconds % 10),
         '>', '\n', '\r'] ∧
      (statusRecord st.temperature st.setpoint st.heat st.seconds).length = 16) ∧
    ((-32768 ≤ st.temperature ∧ st.temperature ≤ 32767) ∧
        (-32768 ≤ st.setpoint ∧ st.setpoint ≤ 32767) ∧ st.seconds ≤ 65535 →
      statusRecord st.temperature st.setpoint st.heat st.seconds =
        ['<'] ++ fmtInt 2 st.temperature ++ [','] ++ fmtInt 2 st.setpoint ++ [','] ++
          [if st.heat = true then '1' else '0'] ++ [','] ++ fmtInt 4 (st.seconds : Int) ++
          ['>', '\n', '\r']) ∧
    ((st.temperature < 0 →
        fmtInt 2 st.temperature = '-' :: Nat.toDigits 10 st.temperature.natAbs) ∧
      (100 ≤ st.temperature →
        fmtInt 2 st.temperature = Nat.toDigits 10 st.temperature.natAbs ∧
        3 ≤ (Nat.toDigits 10 st.temperature.natAbs).length)) ∧
    ((st.setpoint < 0 →
        fmtInt 2 st.setpoint = '-' :: Nat.toDigits 10 st.setpoint.natAbs) ∧
      (100 ≤ st.setpoint →
        fmtInt 2 st.setpoint = Nat.toDigits 10 st.setpoint.natAbs ∧
        3 ≤ (Nat.toDigits 10 st.setpoint.natAbs).length)) ∧
    (10000 ≤ st.seconds ∧ st.seconds ≤ 65535 →
      fmtInt 4 (st.seconds : Int) =
        [Nat.digitChar (st.seconds / 10000), Nat.digitChar (st.seconds / 1000 % 10),
         Nat.digitChar (st.seconds / 100 % 10), Nat.digitChar (st.seconds / 10 % 10),
         Nat.digitChar (st.seconds % 10)]) := by
  refine ⟨rfl, ?_, ?_, ⟨fmtInt_two_neg _, fmtInt_two_big _⟩,
    ⟨fmtInt_two_neg _, fmtInt_two_big _⟩, fun h => fmtInt_four_big _ h.1 h.2⟩
  · rintro ⟨ht, hs, hsec⟩
    have e : statusRecord st.temperature st.setpoint st.heat st.seconds =
        ['<', Nat.digitChar (st.temperature.natAbs / 10),
         Nat.digitChar (st.temperature.natAbs % 10),
         ',', Nat.digitChar (st.setpoint.natAbs / 10), Nat.digitChar (st.setpoint.natAbs % 10),
         ',', (if st.heat = true then '1' else '0'),
         ',', Nat.digitChar (st.seconds / 1000), Nat.digitChar (st.seconds / 100 % 10),
         Nat.digitChar (st.seconds / 10 % 10), Nat.digitChar (st.seconds % 10),
         '>', '\n', '\r'] := by
      unfold statusRecord
      rw [fmtInt_two _ ht.1 ht.2, fmtInt_two _ hs.1 hs.2, fmtInt_four _ hsec, fmtInt_flag]
      rfl
    refine ⟨e, ?_⟩
    rw [e]
    rfl
  · rintro ⟨ht, hs, hsec⟩
    exact statusRecord_untruncated _ _ _ _ ht hs hsec

/-- Claim C14 at two states: temperature 25, setpoint 30, heat on, 7 seconds
give `<25,30,1,0007>` and `\n\r`, 16 characters; temperature -2, setpoint
100, heat on, 10000 seconds give `<-2,100,1,10000>` and `\n\r`. -/
theorem C14_status_record_witness :
    (statusRecord 25 30 true 7 =
      ['<', '2', '5', ',', '3', '0', ',', '1', ',', '0', '0', '0', '7', '>', '\n', '\r'] ∧
     (statusRecord 25 30 true 7).length = 16) ∧
    statusRecord (-2) 100 true 10000 =
      ['<', '-', '2', ',', '1', '0', '0', ',', '1', ',', '1', '0', '0', '0', '0',
       '>', '\n', '\r'] ∧
    fmtInt 2 (-2) = ['-', '2'] ∧
    fmtInt 2 100 = ['1', '0', '0'] ∧
    fmtInt 4 ((10000 : Nat) : Int) = ['1', '0', '0', '0', '0'] :=
  have h := (C14_status_record
    { initState with temperature := 25, heat := true, seconds := 7 }).2.1
    (by decide)
  have g := (C14_status_record
    { initState with temperature := -2, setpoint := 100, heat := true, seconds := 10000 })
  ⟨⟨h.1.trans (by decide), h.2⟩, (g.2.2.1 (by decide)).trans (by decide),
    (g.2.2.2.1.1 (by decide)).trans (by decide),
    ((g.2.2.2.2.1.2 (by decide)).1).trans (by decide),
    (g.2.2.2.2.2 (by decide)).trans (by decide)⟩

/-- Claim C14 as stated fails for 16-bit values outside those ranges: 10000
seconds are printed with five digits (17 characters), a temperature of 100 with
three digits (17 characters), and a temperature of -2 as a minus sign and one
digit. -/
theorem C14_counterexample :
    (statusRecord 25 30 true 10000 =
      ['<', '2', '5', ',', '3', '0', ',', '1', ',', '1', '0', '0', '0', '0', '>', '\n', '\r'] ∧
     (statusRecord 25 30 true 10000).length = 17) ∧
    (statusRecord 100 30 false 7 =
      ['<', '1', '0', '0', ',', '3', '0', ',', '0', ',', '0', '0', '0', '7', '>', '\n', '\r'] ∧
     (statusRecord 100 30 false 7).length = 17) ∧
    statusRecord (-2) 30 true 7 =
      ['<', '-', '2', ',', '3', '0', ',', '1', ',', '0', '0', '0', '7', '>', '\n', '\r'] := by
  decide

end Thermostat
